import Mathlib

/-!
Verification of the surfforecast-go forecast-extraction engine.

The development shallowly embeds the Go sources:
  * `internal/htmlutil/htmlutil.go` — generic markup-tree queries,
  * `forecast.go` — the scraping/normalization pipeline.

Modelling conventions:
  * `*html.Node` trees become the inductive `Node`; a nil child pointer is
    `Option.none` (`List.head?` of the child list).
  * Go `error` results become `Except GoError α`; a nil-pointer dereference
    (a runtime panic, not an error value) is the distinguished outcome
    `GoError.nilPanic`, which `fmt.Errorf` wrapping never touches.
  * Go `float64` values are carried, never computed with, by the engine; they
    are modelled as exact decimal fractions (`GoFloat`: an integer mantissa
    over a power-of-ten scale), with binary rounding abstracted.
  * External library capabilities (`timezone.GetTimezones`,
    `time.LoadLocation`, `encoding/json`, `strconv`) are modelled from their
    documented behaviour, restricted to the inputs this engine feeds them.
-/

namespace SurfSpec

/-- NodeType mirrors golang.org/x/net/html.NodeType. -/
inductive NodeType where
  | errorNode
  | textNode
  | documentNode
  | elementNode
  | commentNode
  | doctypeNode
deriving DecidableEq, Repr

/-- Attr mirrors html.Attribute (Namespace, Key, Val). -/
structure Attr where
  namespc : String
  key : String
  val : String
deriving DecidableEq, Repr

/-- Node mirrors html.Node: node type, Data, Attr list and the child list
(FirstChild/NextSibling pointers become the ordered list of children). -/
inductive Node where
  | mk (type : NodeType) (data : String) (attr : List Attr) (children : List Node)

/-- The node type field. -/
def Node.type : Node → NodeType
  | .mk t _ _ _ => t

/-- The Data field. -/
def Node.data : Node → String
  | .mk _ d _ _ => d

/-- The Attr field. -/
def Node.attrs : Node → List Attr
  | .mk _ _ a _ => a

/-- The ordered children (FirstChild/NextSibling chain). -/
def Node.children : Node → List Node
  | .mk _ _ _ cs => cs

/-- FirstChild; `none` models a nil pointer. -/
def Node.firstChild (n : Node) : Option Node := n.children.head?

instance : Inhabited Node := ⟨.mk .errorNode "" [] []⟩

end SurfSpec

namespace Htmlutil

open SurfSpec

/-- AttributeClass constant from htmlutil.go. -/
def AttributeClass : String := "class"

/-- AttributeAlternateImageText constant from htmlutil.go. -/
def AttributeAlternateImageText : String := "alt"

/-- AttributeTransform constant from htmlutil.go. -/
def AttributeTransform : String := "transform"

/-- FindCondition from htmlutil.go: a predicate on nodes. -/
abbrev FindCondition := Node → Bool

/-- matchesConditions from htmlutil.go: conjunction of all conditions
(the variadic argument becomes a list). -/
def matchesConditions (n : Node) (conditions : List FindCondition) : Bool :=
  conditions.all (fun c => c n)

mutual

/-- Find from htmlutil.go: collects, in pre-order, the node and all of its
descendants matching the conjunction of the conditions. -/
def Find (n : Node) (conditions : List FindCondition) : List Node :=
  match n with
  | .mk t d a cs =>
    (if matchesConditions (.mk t d a cs) conditions then [Node.mk t d a cs] else [])
      ++ FindList cs conditions

/-- The `for c := n.FirstChild; ...` loop of Find over the sibling chain. -/
def FindList (ns : List Node) (conditions : List FindCondition) : List Node :=
  match ns with
  | [] => []
  | c :: cs => Find c conditions ++ FindList cs conditions

end

mutual

/-- FindOne from htmlutil.go: first matching node in pre-order; the Go
`(nil, false)` / `(node, true)` pair becomes an `Option`. -/
def FindOne (n : Node) (conditions : List FindCondition) : Option Node :=
  match n with
  | .mk t d a cs =>
    if matchesConditions (.mk t d a cs) conditions then some (.mk t d a cs)
    else FindOneList cs conditions

/-- The sibling-chain loop of FindOne. -/
def FindOneList (ns : List Node) (conditions : List FindCondition) : Option Node :=
  match ns with
  | [] => none
  | c :: cs =>
    match FindOne c conditions with
    | some target => some target
    | none => FindOneList cs conditions

end

mutual

/-- ForEach from htmlutil.go: runs the statement on the node, then on every
descendant in pre-order, stopping at (and propagating) the first error. -/
def ForEach {ε : Type} (n : Node) (statement : Node → Except ε Unit) : Except ε Unit :=
  match n with
  | .mk t d a cs =>
    match statement (.mk t d a cs) with
    | .error e => .error e
    | .ok _ => ForEachList cs statement

/-- The sibling-chain loop of ForEach. -/
def ForEachList {ε : Type} (ns : List Node) (statement : Node → Except ε Unit) :
    Except ε Unit :=
  match ns with
  | [] => .ok ()
  | c :: cs =>
    match ForEach c statement with
    | .error e => .error e
    | .ok _ => ForEachList cs statement

end

/-- substring test modelling Go strings.Contains. -/
def stringsContains (s substr : String) : Bool :=
  decide (List.IsInfix substr.toList s.toList)

/-- Attribute from htmlutil.go: first attribute with the given key. -/
def Attribute (n : Node) (key : String) : Option Attr :=
  n.attrs.find? (fun attr => attr.key == key)

/-- AttributeEquals from htmlutil.go. -/
def AttributeEquals (n : Node) (key value : String) : Bool :=
  match Attribute n key with
  | none => false
  | some attr => attr.val == value

/-- AttributeContains from htmlutil.go. -/
def AttributeContains (n : Node) (key value : String) : Bool :=
  match Attribute n key with
  | none => false
  | some attr => stringsContains attr.val value

/-- ClassEquals from htmlutil.go. -/
def ClassEquals (n : Node) (value : String) : Bool :=
  AttributeEquals n AttributeClass value

/-- ClassContains from htmlutil.go (variadic values become a list). -/
def ClassContains (n : Node) (values : List String) : Bool :=
  values.all (fun v => AttributeContains n AttributeClass v)

/-- WithClassEqual from htmlutil.go. -/
def WithClassEqual (value : String) : FindCondition :=
  fun n => ClassEquals n value

/-- WithClassContaining from htmlutil.go. -/
def WithClassContaining (values : List String) : FindCondition :=
  fun n => ClassContains n values

/-- WithAttributeEqual from htmlutil.go. -/
def WithAttributeEqual (key value : String) : FindCondition :=
  fun n => AttributeEquals n key value

/-- WithAttribute from htmlutil.go. -/
def WithAttribute (key : String) : FindCondition :=
  fun n => (Attribute n key).isSome

mutual

/-- Pre-order (document-order) traversal sequence of a tree. -/
def preorder (n : Node) : List Node :=
  match n with
  | .mk t d a cs => Node.mk t d a cs :: preorderList cs

/-- Pre-order traversal of a sibling chain. -/
def preorderList (ns : List Node) : List Node :=
  match ns with
  | [] => []
  | c :: cs => preorder c ++ preorderList cs

end

/-- Specification-side sequential visit: runs the statement on each listed
node in order, propagating the first error. -/
def seqVisit {ε : Type} (ns : List Node) (statement : Node → Except ε Unit) :
    Except ε Unit :=
  match ns with
  | [] => .ok ()
  | n :: rest =>
    match statement n with
    | .error e => .error e
    | .ok _ => seqVisit rest statement

theorem seqVisit_append {ε : Type} (xs ys : List Node) (f : Node → Except ε Unit) :
    seqVisit (xs ++ ys) f =
      match seqVisit xs f with
      | .error e => .error e
      | .ok _ => seqVisit ys f := by
  induction xs with
  | nil => simp [seqVisit]
  | cons x xs ih =>
    simp only [List.cons_append, seqVisit]
    cases f x with
    | error e => rfl
    | ok _ => exact ih

mutual

theorem ForEach_eq_seqVisit {ε : Type} (n : Node) (f : Node → Except ε Unit) :
    ForEach n f = seqVisit (preorder n) f := by
  match n with
  | .mk t d a cs =>
    rw [ForEach, preorder, seqVisit]
    cases f (Node.mk t d a cs) with
    | error e => rfl
    | ok _ => exact ForEachList_eq_seqVisit cs f

theorem ForEachList_eq_seqVisit {ε : Type} (ns : List Node) (f : Node → Except ε Unit) :
    ForEachList ns f = seqVisit (preorderList ns) f := by
  match ns with
  | [] => rfl
  | c :: cs =>
    rw [ForEachList, preorderList, seqVisit_append, ForEach_eq_seqVisit c f]
    cases seqVisit (preorder c) f with
    | error e => rfl
    | ok _ => exact ForEachList_eq_seqVisit cs f

end

mutual

theorem Find_eq_filter_preorder (n : Node) (conds : List FindCondition) :
    Find n conds = (preorder n).filter (fun m => matchesConditions m conds) := by
  match n with
  | .mk t d a cs =>
    rw [Find, preorder, List.filter_cons, Find_list_filter cs conds]
    by_cases h : matchesConditions (Node.mk t d a cs) conds
    · simp [h]
    · simp [h]

theorem Find_list_filter (ns : List Node) (conds : List FindCondition) :
    FindList ns conds = (preorderList ns).filter (fun m => matchesConditions m conds) := by
  match ns with
  | [] => rfl
  | c :: cs =>
    rw [FindList, preorderList, List.filter_append, Find_eq_filter_preorder c conds,
      Find_list_filter cs conds]

end

mutual

theorem FindOne_eq_head_Find (n : Node) (conds : List FindCondition) :
    FindOne n conds = (Find n conds).head? := by
  match n with
  | .mk t d a cs =>
    rw [FindOne, Find]
    by_cases h : matchesConditions (Node.mk t d a cs) conds
    · simp [h]
    · simp only [h, if_neg, Bool.false_eq_true, not_false_eq_true, if_false,
        List.nil_append]
      exact FindOneList_eq_head_FindList cs conds

theorem FindOneList_eq_head_FindList (ns : List Node) (conds : List FindCondition) :
    FindOneList ns conds = (FindList ns conds).head? := by
  match ns with
  | [] => rfl
  | c :: cs =>
    rw [FindOneList, FindList, FindOne_eq_head_Find c conds]
    cases hfind : Find c conds with
    | nil => simpa using FindOneList_eq_head_FindList cs conds
    | cons x xs => simp

end

end Htmlutil

namespace Surfforecast

open SurfSpec Htmlutil

/-- Outcome of a Go computation: either an error value (built from message
strings by errors.New / fmt.Errorf) or a nil-pointer dereference, which in Go
is a runtime panic rather than a returned error. -/
inductive GoError where
  | msg (s : String)
  | nilPanic
deriving DecidableEq, Repr

/-- Result of a Go function returning (T, error). -/
abbrev Res (α : Type) := Except GoError α

instance {ε α : Type} [DecidableEq ε] [DecidableEq α] : DecidableEq (Except ε α)
  | .ok x, .ok y =>
    if h : x = y then isTrue (by rw [h]) else isFalse (by simp [h])
  | .ok _, .error _ => isFalse (by simp)
  | .error _, .ok _ => isFalse (by simp)
  | .error e1, .error e2 =>
    if h : e1 = e2 then isTrue (by rw [h]) else isFalse (by simp [h])

/-- errors.New / fmt.Errorf without wrapping. -/
def errMsg {α : Type} (s : String) : Res α := .error (.msg s)

/-- Character-wise map on a string, by way of its character list (the
kernel-friendly equivalent of the strings library mapping helpers). -/
def stringMap (f : Char → Char) (s : String) : String :=
  String.mk (s.toList.map f)

/-- Modelled from the strings library: Split with the single-space
separator, as the issuance resolver calls it: splits at every space,
preserving empty fields. -/
def goSplitSpace (s : String) : List String :=
  goSplitSpaceAux s.toList []
where
  /-- Accumulating loop over the characters. -/
  goSplitSpaceAux : List Char → List Char → List String
    | [], acc => [String.mk acc.reverse]
    | c :: cs, acc =>
      if c = ' ' then String.mk acc.reverse :: goSplitSpaceAux cs []
      else goSplitSpaceAux cs (c :: acc)

/-- fmt.Errorf with a %w verb: prefixes the wrapped error's message. A panic
propagates untouched, since Go error wrapping never observes it. -/
def wrapGo (pre : String) : GoError → GoError
  | .msg s => .msg (pre ++ s)
  | .nilPanic => .nilPanic

/-- Rendering of the %q verb (escaping inside the string is not modelled; the
engine only formats tame scraped tokens). -/
def quoteStr (s : String) : String := "\"" ++ s ++ "\""

/-- Decimal digit run to a number; none unless nonempty and all digits. -/
def digitsToNat? (cs : List Char) : Option Nat :=
  match cs with
  | [] => none
  | _ =>
    if cs.all Char.isDigit then
      some (cs.foldl (fun acc c => acc * 10 + (c.toNat - 48)) 0)
    else none

/-- Modelled from the strconv library: Atoi parses an optional sign followed
by a nonempty run of decimal digits (int64 overflow is not modelled; the
engine only parses short numerals). -/
def goAtoi (s : String) : Option Int :=
  match s.toList with
  | [] => none
  | c :: rest =>
    if c = Char.ofNat 43 then (digitsToNat? rest).map Int.ofNat
    else if c = Char.ofNat 45 then (digitsToNat? rest).map (fun n => -(n : Int))
    else (digitsToNat? (c :: rest)).map Int.ofNat

/-- Modelled from the strings library: ToUpper, restricted to the ASCII
mapping (the engine only compares against "AM"/"PM"). -/
def goToUpper (s : String) : String := stringMap Char.toUpper s

/-- parseTwelveClockHour from forecast.go. -/
def parseTwelveClockHour (s : String) : Res Int :=
  match goAtoi s with
  | none => errMsg ("not integer: " ++ quoteStr s)
  | some hour =>
    if hour < 1 ∨ hour > 12 then errMsg ("not 12 clock hour: " ++ quoteStr s)
    else .ok hour

/-- clockPeriod from forecast.go. -/
inductive clockPeriod where
  | beforeMidday
  | afterMidday
deriving DecidableEq, Repr

export clockPeriod (beforeMidday afterMidday)

/-- parseClockPeriod from forecast.go. -/
def parseClockPeriod (s : String) : Res clockPeriod :=
  match goToUpper s with
  | "AM" => .ok beforeMidday
  | "PM" => .ok afterMidday
  | _ => errMsg ("invalid clock period: " ++ quoteStr s)

/-- toTwentyFourClockHour from forecast.go. -/
def toTwentyFourClockHour (hour : Int) (p : clockPeriod) : Int :=
  if p = beforeMidday then
    if hour = 12 then 0 else hour
  else
    if hour = 12 then hour else hour + 12

/-- parseDay from forecast.go. -/
def parseDay (s : String) : Res Int :=
  match goAtoi s with
  | none => errMsg ("not integer: " ++ quoteStr s)
  | some day =>
    if day < 0 ∨ day > 31 then errMsg ("not month day: " ++ quoteStr s)
    else .ok day

/-- parseMonthShort from forecast.go; time.Month values are their integer
codes January = 1 .. December = 12. -/
def parseMonthShort (s : String) : Res Int :=
  match s with
  | "Jan" => .ok 1
  | "Feb" => .ok 2
  | "Mar" => .ok 3
  | "Apr" => .ok 4
  | "May" => .ok 5
  | "Jun" => .ok 6
  | "Jul" => .ok 7
  | "Aug" => .ok 8
  | "Sep" => .ok 9
  | "Oct" => .ok 10
  | "Nov" => .ok 11
  | "Dec" => .ok 12
  | _ => errMsg ("invalid short month: " ++ quoteStr s)

/-- parseRating from forecast.go. -/
def parseRating (s : String) : Res Int :=
  match goAtoi s with
  | none => errMsg ("not integer: " ++ quoteStr s)
  | some rating =>
    if rating < 0 ∨ rating > 10 then errMsg ("invalid rating: " ++ quoteStr s)
    else .ok rating

/-- Modelled from the time library: a loaded *time.Location, identified by
its IANA name. Civil-field computations are modelled as zone-independent
(daylight-saving micro-shifts of nonexistent wall times are out of scope). -/
structure Location where
  name : String
deriving DecidableEq, Repr

instance : Inhabited Location := ⟨⟨"UTC"⟩⟩

/-- Days from 1970-01-01 of a proleptic-Gregorian civil date with the month
already normalized into 1..12; the day may be out of range and simply counts
days, exactly as time.Date adds day-1 to the month start. -/
def daysFromCivil (y m d : Int) : Int :=
  let yAdj := if m ≤ 2 then y - 1 else y
  let era := Int.fdiv yAdj 400
  let yoe := yAdj - era * 400
  let mp := Int.fmod (m + 9) 12
  let doy := Int.fdiv (153 * mp + 2) 5 + d - 1
  let doe := yoe * 365 + Int.fdiv yoe 4 - Int.fdiv yoe 100 + doy
  era * 146097 + doe - 719468

/-- Civil date (year, month, day) of a day count from 1970-01-01. -/
def civilFromDays (z : Int) : Int × Int × Int :=
  let zShift := z + 719468
  let era := Int.fdiv zShift 146097
  let doe := zShift - era * 146097
  let yoe :=
    Int.fdiv (doe - Int.fdiv doe 1460 + Int.fdiv doe 36524 - Int.fdiv doe 146096) 365
  let y := yoe + era * 400
  let doy := doe - (365 * yoe + Int.fdiv yoe 4 - Int.fdiv yoe 100)
  let mp := Int.fdiv (5 * doy + 2) 153
  let d := doy - Int.fdiv (153 * mp + 2) 5 + 1
  let m := if mp < 10 then mp + 3 else mp - 9
  (if m ≤ 2 then y + 1 else y, m, d)

/-- Modelled from the time library: a time.Time as its civil day count,
second of day, and location. -/
structure Time where
  days : Int
  secs : Int
  loc : Location
deriving DecidableEq, Repr

instance : Inhabited Time := ⟨⟨0, 0, default⟩⟩

/-- Modelled from the time library: time.Date normalizes the month into
1..12 (spilling into the year), then counts days and seconds, letting
out-of-range days and hours carry over exactly as Go's implementation does
by adding them to the running totals. -/
def timeDate (year month day hour minute sec : Int) (loc : Location) : Time :=
  let m0 := month - 1
  let y := year + Int.fdiv m0 12
  let m := Int.fmod m0 12 + 1
  let d0 := daysFromCivil y m day
  let total := d0 * 86400 + hour * 3600 + minute * 60 + sec
  { days := Int.fdiv total 86400, secs := Int.fmod total 86400, loc := loc }

/-- Year() of a time.Time. -/
def Time.Year (t : Time) : Int := (civilFromDays t.days).1

/-- Month() of a time.Time, as its integer code. -/
def Time.Month (t : Time) : Int := (civilFromDays t.days).2.1

/-- Day() of a time.Time. -/
def Time.Day (t : Time) : Int := (civilFromDays t.days).2.2

/-- Location() of a time.Time. -/
def Time.Location' (t : Time) : Location := t.loc

theorem civil_sanity_epoch : daysFromCivil 1970 1 1 = 0 := by decide

theorem civil_sanity_roundtrip :
    civilFromDays (daysFromCivil 2022 4 30) = (2022, 4, 30) ∧
    civilFromDays (daysFromCivil 2020 2 29) = (2020, 2, 29) ∧
    civilFromDays (daysFromCivil 2021 12 31) = (2021, 12, 31) := by decide

theorem timeDate_sanity_overflow :
    ((timeDate 2022 4 31 0 0 0 default).Month, (timeDate 2022 4 31 0 0 0 default).Day)
      = (5, 1) ∧
    ((timeDate 2022 4 0 0 0 0 default).Month, (timeDate 2022 4 0 0 0 0 default).Day)
      = (3, 31) ∧
    ((timeDate 2021 14 1 0 0 0 default).Year, (timeDate 2021 14 1 0 0 0 default).Month)
      = (2022, 2) := by decide

end Surfforecast

namespace Surfforecast

open SurfSpec Htmlutil

/-- classBreakHeaderIssued constant from forecast.go. -/
def classBreakHeaderIssued : String := "break-header__issued"

/-- classForecastTableBasic constant from forecast.go. -/
def classForecastTableBasic : String := "forecast-table__basic"

/-- classForecastTableRow constant from forecast.go. -/
def classForecastTableRow : String := "forecast-table__row"

/-- classForecastTableCell constant from forecast.go. -/
def classForecastTableCell : String := "forecast-table__cell"

/-- classForecastTableValue constant from forecast.go. -/
def classForecastTableValue : String := "forecast-table__value"

/-- classForecastTableTime constant from forecast.go. -/
def classForecastTableTime : String := "forecast-table-time"

/-- classForecastTableDays constant from forecast.go. -/
def classForecastTableDays : String := "forecast-table-days"

/-- classForecastTableRating constant from forecast.go. -/
def classForecastTableRating : String := "forecast-table-rating"

/-- classIsDayEnd constant from forecast.go. -/
def classIsDayEnd : String := "is-day-end"

/-- classWindIcon constant from forecast.go. -/
def classWindIcon : String := "wind-icon"

/-- classWindLetters constant from forecast.go. -/
def classWindLetters : String := "wind-icon__letters"

/-- classWindIconArrow constant from forecast.go. -/
def classWindIconArrow : String := "wind-icon__arrow"

/-- attributeDataRowName constant from forecast.go. -/
def attributeDataRowName : String := "data-row-name"

/-- attributeDataSwellState constant from forecast.go. -/
def attributeDataSwellState : String := "data-swell-state"

/-- attributeDataSpeed constant from forecast.go. -/
def attributeDataSpeed : String := "data-speed"

/-- dataRowNameDays constant from forecast.go. -/
def dataRowNameDays : String := "days"

/-- dataRowNameTime constant from forecast.go. -/
def dataRowNameTime : String := "time"

/-- dataRowNameRating constant from forecast.go. -/
def dataRowNameRating : String := "rating"

/-- dataRowNameWaveHeight constant from forecast.go. -/
def dataRowNameWaveHeight : String := "wave-height"

/-- dataRowNameEnergy constant from forecast.go. -/
def dataRowNameEnergy : String := "energy"

/-- dataRowNameWind constant from forecast.go. -/
def dataRowNameWind : String := "wind"

/-- dataRowNameWindState constant from forecast.go. -/
def dataRowNameWindState : String := "wind-state"

/-- transformRotatePrefix constant from forecast.go. -/
def transformRotatePrefix : String := "rotate("

/-- transformRotateSuffix constant from forecast.go. -/
def transformRotateSuffix : String := ")"

/-- Longest leading run of decimal digits. -/
def takeDigits : List Char → List Char × List Char
  | [] => ([], [])
  | c :: cs =>
    if c.isDigit then
      let (ds, rest) := takeDigits cs
      (c :: ds, rest)
    else ([], c :: cs)

/-- Numeric value of a digit run. -/
def digitsVal (ds : List Char) : Nat :=
  ds.foldl (fun a c => a * 10 + (c.toNat - 48)) 0

/-- Modelled float64 value: an exact decimal fraction, representing the
rational mantissa / 10 ^ scale. The engine never computes with floats —
it only parses, range-checks and carries them — so every value keeps the
canonical representation its source token produced. -/
structure GoFloat where
  mantissa : Int
  scale : Nat
deriving DecidableEq, Repr

instance : Inhabited GoFloat := ⟨⟨0, 0⟩⟩

/-- The rational a GoFloat represents (for reading the statements; the
engine itself never computes this). -/
def GoFloat.toRat (f : GoFloat) : ℚ := (f.mantissa : ℚ) / (10 : ℚ) ^ f.scale

/-- Whether the represented value is negative: the scale denominator is a
positive power of ten, so the sign is the mantissa's. -/
def GoFloat.isNegB (f : GoFloat) : Bool := f.mantissa < 0

/-- Whether the represented value exceeds the given natural bound, by
cross-multiplication with the positive denominator. -/
def GoFloat.gtNatB (f : GoFloat) (bound : Nat) : Bool :=
  f.mantissa > (bound : Int) * (10 : Int) ^ f.scale

/-- Assembles a parsed decimal literal: sign, integer digits, fraction
digits and a base-ten exponent. -/
def goFloatOfParts (neg : Bool) (intDigits fracDigits : List Char) (ex : Int) :
    GoFloat :=
  let mant0 : Int :=
    (digitsVal intDigits : Int) * (10 : Int) ^ fracDigits.length
      + (digitsVal fracDigits : Int)
  let mant1 : Int := if neg then -mant0 else mant0
  if ex ≥ 0 then ⟨mant1 * (10 : Int) ^ ex.toNat, fracDigits.length⟩
  else ⟨mant1, fracDigits.length + (-ex).toNat⟩

/-- JSON value tree, for the model of encoding/json. Numbers are exact
decimal fractions (see the float64 convention above). -/
inductive Json where
  | null
  | bool (b : Bool)
  | num (f : GoFloat)
  | str (s : String)
  | arr (xs : List Json)
  | obj (fields : List (String × Json))
deriving Repr

/-- JSON whitespace (space, tab, line feed, carriage return). -/
def isJsonWs (c : Char) : Bool :=
  c = ' ' || c = Char.ofNat 9 || c = Char.ofNat 10 || c = Char.ofNat 13

/-- Drops leading JSON whitespace. -/
def skipWs : List Char → List Char
  | [] => []
  | c :: cs => if isJsonWs c then skipWs cs else c :: cs

/-- Reads the body of a JSON string after its opening quote, handling the
basic escapes; the \uXXXX escape is not modelled (the engine's payloads are
plain ASCII). Control characters below 0x20 are rejected, as in RFC 8259. -/
def parseStringChars (fuel : Nat) (cs : List Char) (acc : List Char) :
    Option (String × List Char) :=
  match fuel, cs with
  | 0, _ => none
  | _, [] => none
  | fuel + 1, c :: rest =>
    if c = '"' then some (String.mk acc.reverse, rest)
    else if c = '\\' then
      match rest with
      | [] => none
      | e :: rest2 =>
        let decoded : Option Char :=
          if e = '"' then some '"'
          else if e = '\\' then some '\\'
          else if e = '/' then some '/'
          else if e = 'b' then some (Char.ofNat 8)
          else if e = 'f' then some (Char.ofNat 12)
          else if e = 'n' then some (Char.ofNat 10)
          else if e = 'r' then some (Char.ofNat 13)
          else if e = 't' then some (Char.ofNat 9)
          else none
        match decoded with
        | none => none
        | some ch => parseStringChars fuel rest2 (ch :: acc)
    else if c.toNat < 32 then none
    else parseStringChars fuel rest (c :: acc)

/-- Reads an optional exponent part; none on a malformed exponent. -/
def parseExpPart (cs : List Char) : Option (Int × List Char) :=
  match cs with
  | [] => some (0, [])
  | c :: rest =>
    if c = 'e' || c = 'E' then
      let (sgn, rest1) :=
        match rest with
        | s :: r2 =>
          if s = '+' then ((1 : Int), r2)
          else if s = '-' then ((-1 : Int), r2)
          else ((1 : Int), rest)
        | [] => ((1 : Int), rest)
      let (eds, rest2) := takeDigits rest1
      match eds with
      | [] => none
      | _ => some (sgn * (digitsVal eds : Int), rest2)
    else some (0, cs)

/-- Reads a JSON number (RFC 8259 grammar: no leading plus, no leading zeros,
at least one digit on each side it requires) into an exact rational. -/
def parseJsonNumber (cs0 : List Char) : Option (GoFloat × List Char) :=
  let (neg, cs1) :=
    match cs0 with
    | c :: rest => if c = '-' then (true, rest) else (false, cs0)
    | [] => (false, cs0)
  let (ids, cs2) := takeDigits cs1
  match ids with
  | [] => none
  | i0 :: irest =>
    if i0 = '0' ∧ irest ≠ [] then none
    else
      let hadDot : Bool :=
        match cs2 with
        | d :: _ => d = '.'
        | [] => false
      let (fds, cs3) :=
        if hadDot then takeDigits cs2.tail else ([], cs2)
      if hadDot ∧ fds = [] then none
      else
        match parseExpPart cs3 with
        | none => none
        | some (ex, cs4) => some (goFloatOfParts neg ids fds ex, cs4)

mutual

/-- Reads one JSON value; the fuel strictly decreases on every recursive
call and any fuel of at least twice the input length suffices. -/
def parseJsonValue : Nat → List Char → Option (Json × List Char)
  | 0, _ => none
  | fuel + 1, cs =>
    match skipWs cs with
    | [] => none
    | c :: rest =>
      if c = '"' then
        (parseStringChars (rest.length + 1) rest []).map (fun p => (Json.str p.1, p.2))
      else if c = '[' then
        match skipWs rest with
        | d :: rest2 =>
          if d = ']' then some (Json.arr [], rest2)
          else
            match parseJsonArrayItems fuel (d :: rest2) with
            | none => none
            | some (xs, rest3) => some (Json.arr xs, rest3)
        | [] => none
      else if c = Char.ofNat 123 then
        match skipWs rest with
        | d :: rest2 =>
          if d = Char.ofNat 125 then some (Json.obj [], rest2)
          else
            match parseJsonObjectItems fuel (d :: rest2) with
            | none => none
            | some (fs, rest3) => some (Json.obj fs, rest3)
        | [] => none
      else if c = 't' then
        match rest with
        | 'r' :: 'u' :: 'e' :: rest2 => some (Json.bool true, rest2)
        | _ => none
      else if c = 'f' then
        match rest with
        | 'a' :: 'l' :: 's' :: 'e' :: rest2 => some (Json.bool false, rest2)
        | _ => none
      else if c = 'n' then
        match rest with
        | 'u' :: 'l' :: 'l' :: rest2 => some (Json.null, rest2)
        | _ => none
      else
        (parseJsonNumber (c :: rest)).map (fun p => (Json.num p.1, p.2))

/-- Reads the comma-separated items of a nonempty JSON array, up to and
including the closing bracket. -/
def parseJsonArrayItems : Nat → List Char → Option (List Json × List Char)
  | 0, _ => none
  | fuel + 1, cs =>
    match parseJsonValue fuel cs with
    | none => none
    | some (v, rest) =>
      match skipWs rest with
      | c :: rest2 =>
        if c = ',' then
          match parseJsonArrayItems fuel rest2 with
          | none => none
          | some (xs, rest3) => some (v :: xs, rest3)
        else if c = ']' then some ([v], rest2)
        else none
      | [] => none

/-- Reads the comma-separated members of a nonempty JSON object, up to and
including the closing brace. -/
def parseJsonObjectItems : Nat → List Char → Option (List (String × Json) × List Char)
  | 0, _ => none
  | fuel + 1, cs =>
    match skipWs cs with
    | c :: rest =>
      if c = '"' then
        match parseStringChars (rest.length + 1) rest [] with
        | none => none
        | some (k, rest1) =>
          match skipWs rest1 with
          | d :: rest2 =>
            if d = ':' then
              match parseJsonValue fuel rest2 with
              | none => none
              | some (v, rest3) =>
                match skipWs rest3 with
                | e :: rest4 =>
                  if e = ',' then
                    match parseJsonObjectItems fuel rest4 with
                    | none => none
                    | some (fs, rest5) => some ((k, v) :: fs, rest5)
                  else if e = Char.ofNat 125 then some ([(k, v)], rest4)
                  else none
                | [] => none
            else none
          | [] => none
      else none
    | [] => none

end

/-- swell, the unexported JSON payload struct from forecast.go
(period, angle, letters, height). -/
structure swellPayload where
  Period : GoFloat
  Angle : GoFloat
  Letters : String
  Height : GoFloat
deriving DecidableEq, Repr

/-- The zero value a freshly allocated swell struct starts from. -/
def swellZero : swellPayload := ⟨⟨0, 0⟩, ⟨0, 0⟩, "", ⟨0, 0⟩⟩

/-- Modelled from encoding/json: assigning one object member to the swell
struct. Keys match field tags case-insensitively, unknown keys are ignored,
null leaves the field untouched, and a type mismatch is an error. -/
def setSwellField (p : swellPayload) (k : String) (v : Json) : Option swellPayload :=
  let kl := stringMap Char.toLower k
  if kl = "period" then
    match v with
    | .num q => some { p with Period := q }
    | .null => some p
    | _ => none
  else if kl = "angle" then
    match v with
    | .num q => some { p with Angle := q }
    | .null => some p
    | _ => none
  else if kl = "letters" then
    match v with
    | .str s => some { p with Letters := s }
    | .null => some p
    | _ => none
  else if kl = "height" then
    match v with
    | .num q => some { p with Height := q }
    | .null => some p
    | _ => none
  else some p

/-- Modelled from encoding/json: decoding one array element into a *swell:
null stays a nil pointer, an object decodes member by member (later
duplicates win), anything else is a type error. -/
def decodeSwellPtr : Json → Option (Option swellPayload)
  | .null => some none
  | .obj fields =>
    (fields.foldlM (fun p kv => setSwellField p kv.1 kv.2) swellZero).map some
  | _ => none

/-- Modelled from encoding/json: decoding the top-level value into []*swell:
null leaves the slice nil, an array decodes element-wise, anything else is a
type error. -/
def decodeSwellPtrs : Json → Option (List (Option swellPayload))
  | .null => some []
  | .arr xs => xs.mapM decodeSwellPtr
  | _ => none

/-- Modelled from encoding/json: json.Unmarshal of a payload into []*swell.
Error messages are modelled, not byte-identical to the library's. -/
def jsonUnmarshalSwells (s : String) : Except String (List (Option swellPayload)) :=
  match parseJsonValue (2 * s.length + 4) s.toList with
  | none => .error "invalid json payload"
  | some (v, rest) =>
    match skipWs rest with
    | [] =>
      match decodeSwellPtrs v with
      | none => .error "cannot unmarshal payload into []*swell"
      | some ps => .ok ps
    | _ => .error "invalid character after top-level value"

/-- Swell from forecast.go. -/
structure Swell where
  PeriodInSeconds : GoFloat
  DirectionToInDegrees : GoFloat
  DirectionFromInCompassPoints : String
  WaveHeightInMeters : GoFloat
deriving DecidableEq, Repr

/-- Conversion of a decoded payload record to a Swell, as written inline in
unmarshalSwells. -/
def swellOfPayload (p : swellPayload) : Swell :=
  { PeriodInSeconds := p.Period
    DirectionToInDegrees := p.Angle
    DirectionFromInCompassPoints := p.Letters
    WaveHeightInMeters := p.Height }

/-- unmarshalSwells from forecast.go: json-decodes into []*swell, then keeps
the non-nil entries in order. -/
def unmarshalSwells (b : String) : Res (List Swell) :=
  match jsonUnmarshalSwells b with
  | .error e => errMsg ("could not unmarshal payload: " ++ e)
  | .ok payload => .ok ((payload.filterMap id).map swellOfPayload)

/-- scrapeHourlySwells from forecast.go. -/
def scrapeHourlySwells (n : Node) : Res (List Swell) :=
  match Htmlutil.Attribute n attributeDataSwellState with
  | none => errMsg "could not find swells attribute"
  | some attr =>
    match unmarshalSwells attr.val with
    | .error e => .error (wrapGo "could not unmarshal swells: " e)
    | .ok swells => .ok swells

end Surfforecast

namespace Surfforecast

open SurfSpec Htmlutil

/-- wind, the unexported scraping struct from forecast.go. -/
structure wind where
  speed : GoFloat
  degrees : GoFloat
  letters : String
deriving DecidableEq, Repr

instance : Inhabited wind := ⟨⟨⟨0, 0⟩, ⟨0, 0⟩, ""⟩⟩

/-- Wind from forecast.go. -/
structure Wind where
  SpeedInKilometersPerHour : GoFloat
  DirectionToInDegrees : GoFloat
  DirectionFromInCompassPoints : String
  State : String
deriving DecidableEq, Repr

/-- Swells from forecast.go: a slice of Swell. -/
abbrev Swells := List Swell

/-- HourlyForecast from forecast.go. -/
structure HourlyForecast where
  Timestamp : Time
  Rating : Int
  Swells : Swells
  WaveEnergyInKiloJoules : GoFloat
  Wind : Wind
deriving DecidableEq, Repr

instance : Inhabited HourlyForecast :=
  ⟨⟨default, 0, [], ⟨0, 0⟩, ⟨⟨0, 0⟩, ⟨0, 0⟩, "", ""⟩⟩⟩

/-- DailyForecast from forecast.go. -/
structure DailyForecast where
  Timestamp : Time
  Hourly : List HourlyForecast
deriving DecidableEq, Repr

instance : Inhabited DailyForecast := ⟨⟨default, []⟩⟩

/-- Forecasts from forecast.go. -/
structure Forecasts where
  IssuedAt : Time
  Daily : List DailyForecast
deriving DecidableEq, Repr

/-- The index-wise zip of newDailyForecast's loop body: builds one
HourlyForecast per position from the six parallel per-day blocks. -/
def zipHourly (l : Location) (year month day : Int) :
    List Int → List Int → List Swells → List GoFloat → List wind → List String →
      List HourlyForecast
  | h :: hs, r :: rs, s :: ss, e :: es, w :: ws, st :: sts =>
    { Timestamp := timeDate year month day h 0 0 l
      Rating := r
      Swells := s
      WaveEnergyInKiloJoules := e
      Wind :=
        { SpeedInKilometersPerHour := w.speed
          DirectionToInDegrees := w.degrees
          DirectionFromInCompassPoints := w.letters
          State := st } } ::
      zipHourly l year month day hs rs ss es ws sts
  | _, _, _, _, _, _ => []

/-- newDailyForecast from forecast.go: validates the five per-day block
lengths against the hours block, then zips them into hourly records. -/
def newDailyForecast (l : Location) (year month day : Int)
    (hours ratings : List Int) (swells : List Swells) (waveEnergies : List GoFloat)
    (winds : List wind) (windStates : List String) : Res DailyForecast :=
  if hours.length ≠ ratings.length then
    errMsg "hours and ratings must have equal number of elements"
  else if hours.length ≠ swells.length then
    errMsg "hours and swells must have equal number of elements"
  else if hours.length ≠ waveEnergies.length then
    errMsg "hours and wave energies must have equal number of elements"
  else if hours.length ≠ winds.length then
    errMsg "hours and winds must have equal number of elements"
  else if hours.length ≠ windStates.length then
    errMsg "hours and wind states must have equal number of elements"
  else
    .ok
      { Timestamp := timeDate year month day 0 0 0 l
        Hourly := zipHourly l year month day hours ratings swells waveEnergies winds windStates }

/-- The for-loop of newForecasts from forecast.go, carrying the running
(year, month) state and the previous day's forecast. Note two facts taken
verbatim from the source: when the month advance wraps past December the
month is first set to January and then still incremented, and the date is
built from issuedAt.Year(), not from the running year. -/
def forecastLoop (issuedAt : Time) :
    Int → Int → Option DailyForecast →
    List Int → List (List Int) → List (List Int) → List (List Swells) →
    List (List GoFloat) → List (List wind) → List (List String) →
      Res (List DailyForecast)
  | _, _, _, [], _, _, _, _, _, _ => .ok []
  | year, month, previous,
    d :: ds, h :: hs, r :: rs, sw :: sws, e :: es, w :: ws, st :: sts =>
    let month1 : Int :=
      match previous with
      | none => month
      | some p =>
        if p.Timestamp.Day > d then
          (if month + 1 > 12 then (1 : Int) else month) + 1
        else month
    let year1 : Int :=
      match previous with
      | none => year
      | some p => if p.Timestamp.Month > month1 then year + 1 else year
    match newDailyForecast issuedAt.loc issuedAt.Year month1 d h r sw e w st with
    | .error err => .error (wrapGo "could not create forecast: " err)
    | .ok f =>
      match forecastLoop issuedAt year1 month1 (some f) ds hs rs sws es ws sts with
      | .error err => .error err
      | .ok rest => .ok (f :: rest)
  | _, _, _, _ :: _, _, _, _, _, _, _ => .ok []

/-- newForecasts from forecast.go: validates that every row sequence has as
many day-blocks as the days row, then runs the calendar loop. The final
catch-all of forecastLoop is unreachable once these checks pass. -/
def newForecasts (issuedAt : Time) (days : List Int)
    (hours ratings : List (List Int)) (swells : List (List Swells))
    (waveEnergies : List (List GoFloat)) (winds : List (List wind))
    (windStates : List (List String)) : Res Forecasts :=
  if days.length ≠ hours.length then
    errMsg "days and hours must have equal number of elements"
  else if days.length ≠ ratings.length then
    errMsg "days and ratings must have equal number of elements"
  else if days.length ≠ swells.length then
    errMsg "days and swells must have equal number of elements"
  else if days.length ≠ waveEnergies.length then
    errMsg "days and wave energies must have equal number of elements"
  else if days.length ≠ winds.length then
    errMsg "days and winds must have equal number of elements"
  else if days.length ≠ windStates.length then
    errMsg "days and wind states must have equal number of elements"
  else
    match forecastLoop issuedAt issuedAt.Year issuedAt.Month none
        days hours ratings swells waveEnergies winds windStates with
    | .error err => .error err
    | .ok daily => .ok { IssuedAt := issuedAt, Daily := daily }

end Surfforecast

namespace Surfforecast

open SurfSpec Htmlutil

/-- The ForEach-with-closure pattern used by every row scraper: running the
Go visitor (which mutates a captured accumulator) over a tree equals folding
the step over the pre-order sequence, by ForEach_eq_seqVisit. -/
def visitFold {σ : Type} (step : σ → Node → Res σ) : σ → List Node → Res σ
  | s, [] => .ok s
  | s, n :: rest =>
    match step s n with
    | .error e => .error e
    | .ok s2 => visitFold step s2 rest

/-- scrapeDay from forecast.go: a day cell holds exactly two
forecast-table__value descendants; the day numeral is the text of the
second. -/
def scrapeDay (n : Node) : Res Int :=
  match Find n [WithClassEqual classForecastTableValue] with
  | [_, second] =>
    match second.firstChild with
    | none => errMsg "could not find day text node"
    | some dayTextNode =>
      match parseDay dayTextNode.data with
      | .error e => .error (wrapGo "could not parse day: " e)
      | .ok day => .ok day
  | _ => errMsg "unexpected table values"

/-- The visitor body of scrapeDays from forecast.go. -/
def scrapeDayCellStep (days : List Int) (n : Node) : Res (List Int) :=
  if ClassContains n [classForecastTableCell] then
    match scrapeDay n with
    | .error e => .error (wrapGo "could not scrape day: " e)
    | .ok day => .ok (days ++ [day])
  else .ok days

/-- scrapeDays from forecast.go. -/
def scrapeDays (n : Node) : Res (List Int) :=
  match FindOne n
      [WithClassContaining [classForecastTableRow, classForecastTableDays],
       WithAttributeEqual attributeDataRowName dataRowNameDays] with
  | none => errMsg "could not find days node"
  | some daysNode => visitFold scrapeDayCellStep [] (preorder daysNode)

/-- scrapeHour from forecast.go: the numeral is the text of the first
forecast-table__value descendant, the meridiem the text of the second. -/
def scrapeHour (n : Node) : Res Int :=
  match Find n [WithClassEqual classForecastTableValue] with
  | [first, second] =>
    match first.firstChild with
    | none => errMsg "could not find hour text node"
    | some hourTextNode =>
      match parseTwelveClockHour hourTextNode.data with
      | .error e => .error (wrapGo "could not parse hour: " e)
      | .ok hour =>
        match second.firstChild with
        | none => errMsg "could not find clock period text node"
        | some periodTextNode =>
          match parseClockPeriod periodTextNode.data with
          | .error e => .error (wrapGo "could not parse clock period: " e)
          | .ok period => .ok (toTwentyFourClockHour hour period)
  | _ => errMsg "unexpected table values"

/-- The visitor body of scrapeHours from forecast.go, carrying
(closed day-blocks, current block). -/
def scrapeHourCellStep (s : List (List Int) × List Int) (n : Node) :
    Res (List (List Int) × List Int) :=
  if ClassContains n [classForecastTableCell] then
    match scrapeHour n with
    | .error e => .error (wrapGo "could not scrape hour: " e)
    | .ok hour =>
      let hours := s.2 ++ [hour]
      if ClassContains n [classIsDayEnd] then .ok (s.1 ++ [hours], [])
      else .ok (s.1, hours)
  else .ok s

/-- scrapeHours from forecast.go. -/
def scrapeHours (n : Node) : Res (List (List Int)) :=
  match FindOne n
      [WithClassContaining [classForecastTableRow, classForecastTableTime],
       WithAttributeEqual attributeDataRowName dataRowNameTime] with
  | none => errMsg "could not find hours node"
  | some hoursNode =>
    match visitFold scrapeHourCellStep ([], []) (preorder hoursNode) with
    | .error e => .error e
    | .ok s => .ok s.1

/-- The visitor body of scrapeRatings from forecast.go. The source passes
n.FirstChild straight into htmlutil.Attribute, which ranges over its Attr
field, so a cell without a child dereferences a nil pointer: that runtime
panic is the nilPanic outcome. -/
def scrapeRatingCellStep (s : List (List Int) × List Int) (n : Node) :
    Res (List (List Int) × List Int) :=
  if ClassContains n [classForecastTableCell] then
    match n.firstChild with
    | none => .error .nilPanic
    | some fc =>
      match Htmlutil.Attribute fc AttributeAlternateImageText with
      | none => errMsg "could not find rating attribute"
      | some ratingAttr =>
        match parseRating ratingAttr.val with
        | .error e => .error (wrapGo "could not parse rating: " e)
        | .ok rating =>
          let ratings := s.2 ++ [rating]
          if ClassContains n [classIsDayEnd] then .ok (s.1 ++ [ratings], [])
          else .ok (s.1, ratings)
  else .ok s

/-- scrapeRatings from forecast.go. -/
def scrapeRatings (n : Node) : Res (List (List Int)) :=
  match FindOne n
      [WithClassContaining [classForecastTableRow, classForecastTableRating],
       WithAttributeEqual attributeDataRowName dataRowNameRating] with
  | none => errMsg "could not find ratings node"
  | some ratingsNode =>
    match visitFold scrapeRatingCellStep ([], []) (preorder ratingsNode) with
    | .error e => .error e
    | .ok s => .ok s.1

/-- The visitor body of scrapeSwells from forecast.go. -/
def scrapeSwellCellStep (s : List (List Swells) × List Swells) (n : Node) :
    Res (List (List Swells) × List Swells) :=
  if ClassContains n [classForecastTableCell] then
    match scrapeHourlySwells n with
    | .error e => .error (wrapGo "could not scrape hourly swells: " e)
    | .ok hourlySwells =>
      let swells := s.2 ++ [hourlySwells]
      if ClassContains n [classIsDayEnd] then .ok (s.1 ++ [swells], [])
      else .ok (s.1, swells)
  else .ok s

/-- scrapeSwells from forecast.go. -/
def scrapeSwells (n : Node) : Res (List (List Swells)) :=
  match FindOne n
      [WithClassEqual classForecastTableRow,
       WithAttributeEqual attributeDataRowName dataRowNameWaveHeight] with
  | none => errMsg "could not find swells node"
  | some swellsNode =>
    match visitFold scrapeSwellCellStep ([], []) (preorder swellsNode) with
    | .error e => .error e
    | .ok s => .ok s.1

/-- Modelled from the strconv library: ParseFloat restricted to plain
decimal mantissa/exponent syntax (hexadecimal floats, Inf, NaN and digit
underscores are not modelled; the engine's inputs are plain decimals).
Values are exact rationals. -/
def goParseFloat (s : String) : Option GoFloat :=
  let cs := s.toList
  let (neg, cs1) :=
    match cs with
    | c :: rest =>
      if c = '-' then (true, rest)
      else if c = '+' then (false, rest)
      else (false, cs)
    | [] => (false, cs)
  let (ids, cs2) := takeDigits cs1
  let (hadDot, afterDot) :=
    match cs2 with
    | d :: rest => if d = '.' then (true, rest) else (false, cs2)
    | [] => (false, cs2)
  let (fds, cs3) := if hadDot then takeDigits afterDot else ([], cs2)
  if ids = [] ∧ fds = [] then none
  else
    match parseExpPart cs3 with
    | none => none
    | some (ex, cs4) =>
      if cs4 ≠ [] then none
      else some (goFloatOfParts neg ids fds ex)

/-- parseWaveEnergy from forecast.go. -/
def parseWaveEnergy (s : String) : Res GoFloat :=
  match goParseFloat s with
  | none => errMsg ("not float: " ++ quoteStr s)
  | some energy =>
    if energy.isNegB then errMsg ("invalid wave energy: " ++ quoteStr s)
    else .ok energy

/-- scrapeWaveEnergy from forecast.go. -/
def scrapeWaveEnergy (n : Node) : Res GoFloat :=
  match n.firstChild with
  | none => errMsg "could not find wave energy node"
  | some energyNode =>
    match energyNode.firstChild with
    | none => errMsg "could not find wave energy text node"
    | some energyTextNode =>
      match parseWaveEnergy energyTextNode.data with
      | .error e => .error (wrapGo "could not parse wave energy: " e)
      | .ok energy => .ok energy

/-- The visitor body of scrapeWaveEnergies from forecast.go. -/
def scrapeEnergyCellStep (s : List (List GoFloat) × List GoFloat) (n : Node) :
    Res (List (List GoFloat) × List GoFloat) :=
  if ClassContains n [classForecastTableCell] then
    match scrapeWaveEnergy n with
    | .error e => .error (wrapGo "could not scrape wave energy: " e)
    | .ok energy =>
      let energies := s.2 ++ [energy]
      if ClassContains n [classIsDayEnd] then .ok (s.1 ++ [energies], [])
      else .ok (s.1, energies)
  else .ok s

/-- scrapeWaveEnergies from forecast.go. -/
def scrapeWaveEnergies (n : Node) : Res (List (List GoFloat)) :=
  match FindOne n
      [WithClassEqual classForecastTableRow,
       WithAttributeEqual attributeDataRowName dataRowNameEnergy] with
  | none => errMsg "could not find wave energies node"
  | some energiesNode =>
    match visitFold scrapeEnergyCellStep ([], []) (preorder energiesNode) with
    | .error e => .error e
    | .ok s => .ok s.1

/-- Modelled from the strings library: TrimPrefix. -/
def stringsTrimPrefix (s pre : String) : String :=
  if pre.toList.isPrefixOf s.toList then String.mk (s.toList.drop pre.toList.length)
  else s

/-- Modelled from the strings library: TrimSuffix. -/
def stringsTrimSuffix (s suf : String) : String :=
  if suf.toList.reverse.isPrefixOf s.toList.reverse then
    String.mk (s.toList.take (s.toList.length - suf.toList.length))
  else s

/-- parseWindDirectionDegrees from forecast.go. -/
def parseWindDirectionDegrees (s : String) : Res GoFloat :=
  match goParseFloat s with
  | none => errMsg ("not float: " ++ quoteStr s)
  | some degrees =>
    if degrees.isNegB || degrees.gtNatB 360 then
      errMsg ("invalid wind direction degrees: " ++ quoteStr s)
    else .ok degrees

/-- parseWindSpeed from forecast.go. -/
def parseWindSpeed (s : String) : Res GoFloat :=
  match goParseFloat s with
  | none => errMsg ("not float: " ++ quoteStr s)
  | some speed =>
    if speed.isNegB then errMsg ("invalid wind speed: " ++ quoteStr s)
    else .ok speed

/-- scrapeWindDirectionDegrees from forecast.go. -/
def scrapeWindDirectionDegrees (n : Node) : Res GoFloat :=
  match FindOne n [WithClassEqual classWindIconArrow] with
  | none => errMsg "could not find wind direction arrow node"
  | some arrowNode =>
    match Htmlutil.Attribute arrowNode AttributeTransform with
    | none => errMsg "could not find transform attribute"
    | some attr =>
      let degreesText :=
        stringsTrimSuffix (stringsTrimPrefix attr.val transformRotatePrefix)
          transformRotateSuffix
      match parseWindDirectionDegrees degreesText with
      | .error e => .error (wrapGo "could not parse wind direction degrees: " e)
      | .ok degrees => .ok degrees

/-- scrapeWind from forecast.go. -/
def scrapeWind (n : Node) : Res wind :=
  match FindOne n [WithClassEqual classWindIcon] with
  | none => errMsg "could not find wind icon node"
  | some iconNode =>
    match Htmlutil.Attribute iconNode attributeDataSpeed with
    | none => errMsg "could not find wind speed attribute"
    | some speedAttr =>
      match parseWindSpeed speedAttr.val with
      | .error e => .error (wrapGo "could not parse wind speed: " e)
      | .ok speed =>
        match scrapeWindDirectionDegrees iconNode with
        | .error e => .error (wrapGo "could not scrape wind direction degrees: " e)
        | .ok degrees =>
          match FindOne iconNode [WithClassEqual classWindLetters] with
          | none => errMsg "could not find wind direction letters node"
          | some lettersNode =>
            match lettersNode.firstChild with
            | none => errMsg "could not find wind direction letters text node"
            | some lettersTextNode =>
              .ok { speed := speed, degrees := degrees, letters := lettersTextNode.data }

/-- The visitor body of scrapeWinds from forecast.go. -/
def scrapeWindCellStep (s : List (List wind) × List wind) (n : Node) :
    Res (List (List wind) × List wind) :=
  if ClassContains n [classForecastTableCell] then
    match scrapeWind n with
    | .error e => .error (wrapGo "could not scrape wind: " e)
    | .ok w =>
      let winds := s.2 ++ [w]
      if ClassContains n [classIsDayEnd] then .ok (s.1 ++ [winds], [])
      else .ok (s.1, winds)
  else .ok s

/-- scrapeWinds from forecast.go. -/
def scrapeWinds (n : Node) : Res (List (List wind)) :=
  match FindOne n
      [WithClassEqual classForecastTableRow,
       WithAttributeEqual attributeDataRowName dataRowNameWind] with
  | none => errMsg "could not find winds node"
  | some windsNode =>
    match visitFold scrapeWindCellStep ([], []) (preorder windsNode) with
    | .error e => .error e
    | .ok s => .ok s.1

mutual

/-- Data of every text node under a node, in pre-order: the strings the
scrapeWindState visitor appends while ForEach walks the cell. -/
def textContents (n : Node) : List String :=
  match n with
  | .mk t d _a cs =>
    (if t = NodeType.textNode then [d] else []) ++ textContentsList cs

/-- textContents over a sibling chain. -/
def textContentsList (ns : List Node) : List String :=
  match ns with
  | [] => []
  | c :: cs => textContents c ++ textContentsList cs

end

/-- scrapeWindState from forecast.go: joins the text-node data under the
cell (the visitor never errors) and rejects an empty join. -/
def scrapeWindState (n : Node) : Res String :=
  let state := String.join (textContents n)
  if state = "" then errMsg "invalid wind state"
  else .ok state

/-- The visitor body of scrapeWindStates from forecast.go. -/
def scrapeWindStateCellStep (s : List (List String) × List String) (n : Node) :
    Res (List (List String) × List String) :=
  if ClassContains n [classForecastTableCell] then
    match scrapeWindState n with
    | .error e => .error (wrapGo "could not scrape wind state: " e)
    | .ok state =>
      let states := s.2 ++ [state]
      if ClassContains n [classIsDayEnd] then .ok (s.1 ++ [states], [])
      else .ok (s.1, states)
  else .ok s

/-- scrapeWindStates from forecast.go. -/
def scrapeWindStates (n : Node) : Res (List (List String)) :=
  match FindOne n
      [WithClassEqual classForecastTableRow,
       WithAttributeEqual attributeDataRowName dataRowNameWindState] with
  | none => errMsg "could not find wind states node"
  | some statesNode =>
    match visitFold scrapeWindStateCellStep ([], []) (preorder statesNode) with
    | .error e => .error e
    | .ok s => .ok s.1

/-- The token-processing tail of scrapeIssueTimestamp from forecast.go,
from the strings.Split call on, verbatim; split out so the resolver can be
reasoned about one issuance text at a time. -/
def issueTail (data : String)
    (getTimezones : String → Except String (List String))
    (loadLocation : String → Option Location) : Res Time :=
      let parts := goSplitSpace data
      if parts.length ≠ 12 then
        errMsg ("unexpected issue text: " ++ quoteStr data)
      else
        let hourText := parts.getD 5 ""
        let clockPeriodText := parts.getD 6 ""
        let dayText := parts.getD 8 ""
        let monthText := parts.getD 9 ""
        let yearText := parts.getD 10 ""
        let tzAbbr := parts.getD 11 ""
        match parseTwelveClockHour hourText with
        | .error e => .error (wrapGo "could not parse issue hour: " e)
        | .ok hour0 =>
          match parseClockPeriod clockPeriodText with
          | .error e => .error (wrapGo "could not parse clock period: " e)
          | .ok period =>
            let hour := toTwentyFourClockHour hour0 period
            match parseDay dayText with
            | .error e => .error (wrapGo "could not parse issue day: " e)
            | .ok day =>
              match parseMonthShort monthText with
              | .error e => .error (wrapGo "could not parse issue month: " e)
              | .ok month =>
                match goAtoi yearText with
                | none => errMsg ("issue year not integer: " ++ quoteStr yearText)
                | some year =>
                  match getTimezones tzAbbr with
                  | .error e =>
                    errMsg ("could not find timezones for " ++ quoteStr tzAbbr
                      ++ " abbreviation: " ++ e)
                  | .ok timezones =>
                    match timezones with
                    | [] =>
                      errMsg ("0 timezones found for " ++ quoteStr tzAbbr
                        ++ " abbreviation")
                    | timezone :: _ =>
                      match loadLocation timezone with
                      | none =>
                        errMsg ("could not find time location for " ++ quoteStr timezone)
                      | some loc => .ok (timeDate year month day hour 0 0 loc)

/-- scrapeIssueTimestamp from forecast.go. The third-party
timezone.GetTimezones lookup and time.LoadLocation are supplied as
capabilities, as the Go code receives the former through its tz argument. -/
def scrapeIssueTimestamp (n : Node)
    (getTimezones : String → Except String (List String))
    (loadLocation : String → Option Location) : Res Time :=
  match FindOne n [WithClassEqual classBreakHeaderIssued] with
  | none => errMsg "could not find issue node"
  | some issueNode =>
    match issueNode.firstChild with
    | none => errMsg "could not find issue text node"
    | some issueTextNode => issueTail issueTextNode.data getTimezones loadLocation

/-- scrapeForecasts from forecast.go: the extraction entry point. -/
def scrapeForecasts (n : Node)
    (getTimezones : String → Except String (List String))
    (loadLocation : String → Option Location) : Res Forecasts :=
  match scrapeIssueTimestamp n getTimezones loadLocation with
  | .error e => .error (wrapGo "could not scrape issue date: " e)
  | .ok issuedAt =>
    match FindOne n [WithClassEqual classForecastTableBasic] with
    | none => errMsg "could not find table node"
    | some tableNode =>
      match scrapeDays tableNode with
      | .error e => .error (wrapGo "could not scrape days: " e)
      | .ok days =>
        match scrapeHours tableNode with
        | .error e => .error (wrapGo "could not scrape hours: " e)
        | .ok hours =>
          match scrapeRatings tableNode with
          | .error e => .error (wrapGo "could not scrape ratings: " e)
          | .ok ratings =>
            match scrapeSwells tableNode with
            | .error e => .error (wrapGo "could not scrape swells: " e)
            | .ok swells =>
              match scrapeWaveEnergies tableNode with
              | .error e => .error (wrapGo "could not scrape wave energies: " e)
              | .ok waveEnergies =>
                match scrapeWinds tableNode with
                | .error e => .error (wrapGo "could not scrape winds: " e)
                | .ok winds =>
                  match scrapeWindStates tableNode with
                  | .error e => .error (wrapGo "could not scrape wind states: " e)
                  | .ok windStates =>
                    newForecasts issuedAt days hours ratings swells
                      waveEnergies winds windStates

end Surfforecast

namespace Surfforecast

open SurfSpec Htmlutil

/-- Fixture: a loaded Paris location. -/
def parisLoc : Location := ⟨"Europe/Paris"⟩

/-- Fixture: a timezone-abbreviation lookup knowing only CEST. -/
def sampleGetTimezones : String → Except String (List String) :=
  fun abbr => if abbr = "CEST" then .ok ["Europe/Paris"] else .error "no timezones found"

/-- Fixture: a location loader knowing only Europe/Paris. -/
def sampleLoadLocation : String → Option Location :=
  fun s => if s = "Europe/Paris" then some parisLoc else none

/-- Fixture: an element node with a class attribute. -/
def elemN (cls : String) (extra : List Attr) (cs : List Node) : Node :=
  .mk .elementNode "div" (⟨"", "class", cls⟩ :: extra) cs

/-- Fixture: a text node. -/
def textN (s : String) : Node := .mk .textNode s [] []

/-- Fixture: a well-formed 12-token issuance header sentence. -/
def issueText : String := "Local surf forecast issued at 6 AM on 1 Apr 2022 CEST"

/-- Fixture: a document whose ratings row holds one childless data cell; the
days and hours rows are present but empty, so extraction reaches the ratings
scraper with the issue header already resolved. -/
def c4Tree : Node :=
  .mk .documentNode "" []
    [elemN classBreakHeaderIssued [] [textN issueText],
     elemN classForecastTableBasic []
       [elemN "forecast-table__row forecast-table-days"
          [⟨"", attributeDataRowName, dataRowNameDays⟩] [],
        elemN "forecast-table__row forecast-table-time"
          [⟨"", attributeDataRowName, dataRowNameTime⟩] [],
        elemN "forecast-table__row forecast-table-rating"
          [⟨"", attributeDataRowName, dataRowNameRating⟩]
          [elemN "forecast-table__cell is-day-end" [] []]]]

/-- C4. The claim says scrapeForecasts is total: it either returns a full
forecast or a single descriptive error, never crashing, even when an
expected nested child is absent — for example a rating cell with no child
element. The code dereferences the nil FirstChild of such a cell inside
scrapeRatings, so the whole call panics instead of returning an error: on
the concrete c4Tree the outcome is the nilPanic crash, not an error
message. -/
theorem claim_C4_rating_cell_nil_panic :
    scrapeForecasts c4Tree sampleGetTimezones sampleLoadLocation
      = .error .nilPanic := by
  rfl

/-- Fixture: issuance instant of December 15, 2021, 6:00 in Paris. -/
def dec2021Issued : Time := timeDate 2021 12 15 6 0 0 parisLoc

/-- Fixture: an arbitrary scraped wind vector. -/
def sampleWind : wind := ⟨⟨10, 0⟩, ⟨90, 0⟩, "E"⟩

/-- C1. The claim says the reconstructor advances the running month when the
day value does not increase (wrapping December to January), increments the
running year when the month wraps past December, and stamps each day-block
with the running year and month. On the failing input — issuance December
15, 2021 with day-blocks [31, 1] — the source instead wraps December to
February (it sets the month to January and then still increments it) and
passes issuedAt.Year() rather than the running year into the date, so the
second block lands on February 1, 2021 where the claim requires
January 1, 2022. -/
theorem claim_C1_december_rollover_bug :
    (newForecasts dec2021Issued [31, 1] [[10], [11]] [[5], [6]] [[[]], [[]]]
        [[⟨1, 0⟩], [⟨2, 0⟩]] [[sampleWind], [sampleWind]] [["calm"], ["calm"]]).map
      (fun f => f.Daily.map
        (fun d => (d.Timestamp.Year, d.Timestamp.Month, d.Timestamp.Day)))
      = .ok [(2021, 12, 31), (2021, 2, 1)] := by
  decide

/-- Fixture: a single childless element node. -/
def c6Leaf : Node := .mk .elementNode "div" [] []

/-- C6 counterexample. The claim says some distinguished stop signal, when
returned by the visitor, halts the walk and makes it return success. For
every candidate signal, a visitor that returns it already on the root makes
ForEach return that very signal as an error, never success. -/
theorem claim_C6_counterexample :
    ¬ ∃ stop : String, ForEach c6Leaf (fun _ => Except.error stop) = Except.ok () := by
  rintro ⟨s, h⟩
  exact Except.noConfusion h

/-- C6 (amended): ForEach performs a pre-order depth-first traversal
invoking the visitor on every node, and the first non-nil signal the visitor
returns — whatever its value — aborts the traversal and is propagated as the
walk's error; there is no distinguished stop signal treated as success. -/
theorem claim_C6_ForEach_preorder_propagation :
    ∀ (ε : Type) (n : Node) (f : Node → Except ε Unit),
      ForEach n f = seqVisit (preorder n) f :=
  fun _ n f => ForEach_eq_seqVisit n f

/-- C7. Find returns precisely the pre-order document-order sequence of the
nodes (root included) satisfying the conjunction of all conditions, and
FindOne returns exactly the head of that sequence when it is non-empty and
none otherwise; both are total functions, so absence is only ever signalled
by the empty sequence or a none result. -/
theorem claim_C7_Find_FindOne_spec :
    ∀ (n : Node) (conds : List FindCondition),
      Find n conds = (preorder n).filter (fun m => matchesConditions m conds) ∧
      FindOne n conds = (Find n conds).head? :=
  fun n conds => ⟨Find_eq_filter_preorder n conds, FindOne_eq_head_Find n conds⟩

mutual

theorem textContents_eq_preorder (n : Node) :
    textContents n = (preorder n).filterMap
      (fun m => if m.type = NodeType.textNode then some m.data else none) := by
  match n with
  | .mk t d a cs =>
    rw [textContents, preorder, List.filterMap_cons, textContentsList_eq_preorder cs]
    by_cases h : t = NodeType.textNode
    · simp [h, Node.type, Node.data]
    · simp [h, Node.type]

theorem textContentsList_eq_preorder (ns : List Node) :
    textContentsList ns = (preorderList ns).filterMap
      (fun m => if m.type = NodeType.textNode then some m.data else none) := by
  match ns with
  | [] => rfl
  | c :: cs =>
    rw [textContentsList, preorderList, List.filterMap_append,
      textContents_eq_preorder c, textContentsList_eq_preorder cs]

end

/-- Modelled from the spec: trimming surrounding whitespace from the joined
text, as the claim describes. -/
def specTrimSpace (s : String) : String :=
  String.mk ((s.toList.dropWhile Char.isWhitespace).reverse.dropWhile
    Char.isWhitespace).reverse

/-- Fixture: a wind-state cell whose only descendant text is one space. -/
def wsCell : Node := .mk .elementNode "td" [] [textN " "]

/-- C9 counterexample. The claim says the scraper returns the concatenated
descendant text trimmed of surrounding whitespace and errors exactly when
that trimmed result is empty, so a whitespace-only cell must be a fatal
error. The source never trims: on a cell whose descendant text is a single
space it succeeds with the untrimmed one-space state, although the trimmed
concatenation is empty. -/
theorem claim_C9_counterexample :
    scrapeWindState wsCell = .ok " " ∧ specTrimSpace " " = "" := by
  constructor
  · rfl
  · rfl

/-- C9 (amended): scrapeWindState returns the untrimmed concatenation, in
pre-order, of all descendant text-node contents under the cell, and fails
with the error "invalid wind state" exactly when that raw concatenation is
the empty string — a whitespace-only cell therefore succeeds with its
whitespace as the state. -/
theorem claim_C9_windState_spec :
    ∀ n : Node,
      scrapeWindState n =
        (if String.join ((preorder n).filterMap
            (fun m => if m.type = NodeType.textNode then some m.data else none)) = ""
         then errMsg "invalid wind state"
         else .ok (String.join ((preorder n).filterMap
            (fun m => if m.type = NodeType.textNode then some m.data else none)))) := by
  intro n
  rw [scrapeWindState, textContents_eq_preorder n]

end Surfforecast

namespace Surfforecast

open SurfSpec Htmlutil

theorem parseTwelveClockHour_ok_iff (s : String) (v : Int) :
    parseTwelveClockHour s = .ok v ↔ (goAtoi s = some v ∧ 1 ≤ v ∧ v ≤ 12) := by
  cases h : goAtoi s with
  | none => simp [parseTwelveClockHour, h, errMsg]
  | some w =>
    simp only [parseTwelveClockHour, h, Option.some.injEq, errMsg]
    by_cases hw : w < 1 ∨ w > 12
    · rw [if_pos hw]
      constructor
      · intro habs; exact absurd habs (by simp)
      · rintro ⟨hww, h1, h2⟩
        omega
    · rw [if_neg hw]
      push_neg at hw
      constructor
      · intro hok
        injection hok with hok
        subst hok
        exact ⟨rfl, by omega, by omega⟩
      · rintro ⟨hww, _, _⟩
        rw [hww]

theorem parseClockPeriod_am_iff (s : String) :
    parseClockPeriod s = .ok beforeMidday ↔ goToUpper s = "AM" := by
  unfold parseClockPeriod
  split
  next heq => simp [heq]
  next heq => simp [heq]
  next h1 h2 =>
    simp only [errMsg]
    constructor
    · intro habs; exact absurd habs (by simp)
    · intro hAM; exact absurd hAM h1

theorem parseClockPeriod_pm_iff (s : String) :
    parseClockPeriod s = .ok afterMidday ↔ goToUpper s = "PM" := by
  unfold parseClockPeriod
  split
  next heq => simp [heq]
  next heq => simp [heq]
  next h1 h2 =>
    simp only [errMsg]
    constructor
    · intro habs; exact absurd habs (by simp)
    · intro hPM; exact absurd hPM h2

/-- C5. The hour pipeline parses exactly the numerals with value 1..12
(rejecting "0", "13" and non-numerals), recognizes exactly the meridiem
markers whose uppercasing is AM or PM, and converts to 24-hour form by
12 AM to 0, 12 PM to 12, other AM hours unchanged and other PM hours
plus twelve. -/
theorem claim_C5_hour_pipeline :
    (∀ (s : String) (v : Int),
        parseTwelveClockHour s = .ok v ↔ (goAtoi s = some v ∧ 1 ≤ v ∧ v ≤ 12)) ∧
    (∀ s : String, parseClockPeriod s = .ok beforeMidday ↔ goToUpper s = "AM") ∧
    (∀ s : String, parseClockPeriod s = .ok afterMidday ↔ goToUpper s = "PM") ∧
    (∀ h : Int, toTwentyFourClockHour h beforeMidday = if h = 12 then 0 else h) ∧
    (∀ h : Int, toTwentyFourClockHour h afterMidday = if h = 12 then 12 else h + 12) ∧
    toTwentyFourClockHour 1 beforeMidday = 1 ∧
    toTwentyFourClockHour 1 afterMidday = 13 ∧
    toTwentyFourClockHour 11 afterMidday = 23 ∧
    toTwentyFourClockHour 12 beforeMidday = 0 ∧
    toTwentyFourClockHour 12 afterMidday = 12 ∧
    (parseTwelveClockHour "0").isOk = false ∧
    (parseTwelveClockHour "13").isOk = false ∧
    (parseTwelveClockHour "noon").isOk = false ∧
    (parseClockPeriod "XX").isOk = false := by
  refine ⟨parseTwelveClockHour_ok_iff, parseClockPeriod_am_iff, parseClockPeriod_pm_iff,
    ?_, ?_, ?_, ?_, ?_, ?_, ?_, ?_, ?_, ?_, ?_⟩
  · intro h
    by_cases h12 : h = 12 <;> simp [toTwentyFourClockHour, h12]
  · intro h
    by_cases h12 : h = 12 <;> simp [toTwentyFourClockHour, h12]
  all_goals decide

theorem parseDay_ok_iff (s : String) (v : Int) :
    parseDay s = .ok v ↔ (goAtoi s = some v ∧ 0 ≤ v ∧ v ≤ 31) := by
  cases h : goAtoi s with
  | none => simp [parseDay, h, errMsg]
  | some w =>
    simp only [parseDay, h, Option.some.injEq, errMsg]
    by_cases hw : w < 0 ∨ w > 31
    · rw [if_pos hw]
      constructor
      · intro habs; exact absurd habs (by simp)
      · rintro ⟨hww, h1, h2⟩
        omega
    · rw [if_neg hw]
      push_neg at hw
      constructor
      · intro hok
        injection hok with hok
        subst hok
        exact ⟨rfl, by omega, by omega⟩
      · rintro ⟨hww, _, _⟩
        rw [hww]

/-- C10. parseDay succeeds exactly on the strings strconv.Atoi accepts whose
value lies in 0..31 inclusive — in particular it accepts "0", which is no
valid day of any month — rejecting non-integers, negatives and values above
31; and a day of 0 then flows unchecked into date construction, where the
assembler normalizes April 0 to March 31 rather than rejecting it. -/
theorem claim_C10_parseDay :
    (∀ (s : String) (v : Int),
        parseDay s = .ok v ↔ (goAtoi s = some v ∧ 0 ≤ v ∧ v ≤ 31)) ∧
    parseDay "0" = .ok 0 ∧
    (parseDay "32").isOk = false ∧
    (parseDay "-1").isOk = false ∧
    (parseDay "abc").isOk = false ∧
    newDailyForecast ⟨"UTC"⟩ 2022 4 0 [] [] [] [] [] []
      = .ok { Timestamp := timeDate 2022 4 0 0 0 0 ⟨"UTC"⟩, Hourly := [] } ∧
    (timeDate 2022 4 0 0 0 0 ⟨"UTC"⟩).Month = 3 ∧
    (timeDate 2022 4 0 0 0 0 ⟨"UTC"⟩).Day = 31 := by
  refine ⟨parseDay_ok_iff, ?_, ?_, ?_, ?_, ?_, ?_, ?_⟩
  all_goals decide

end Surfforecast

namespace Surfforecast

open SurfSpec Htmlutil

/-- Fixture: a data-swell-state value written with single quotes, the shape
the claim says gets normalized before decoding. -/
def sqSwellVal : String :=
  "[\x7b\x27period\x27: 1.5, \x27angle\x27: 200, \x27letters\x27: \x27S\x27, \x27height\x27: 0.3\x7d]"

/-- Fixture: a swell cell carrying the single-quoted value. -/
def sqSwellCell : Node :=
  .mk .elementNode "td" [⟨"", attributeDataSwellState, sqSwellVal⟩] []

/-- Modelled from the spec: the claimed normalization that replaces every
single quote in the attribute value by a double quote before decoding. -/
def specNormalizeSwellQuotes (s : String) : String :=
  stringMap (fun c => if c = Char.ofNat 39 then '"' else c) s

/-- C3 counterexample. The claim says the swell scraper replaces all single
quotes by double quotes and then decodes, so the single-quoted sqSwellVal
must decode to one record. The source passes the attribute value to the
JSON decoder as-is: on sqSwellCell the scrape fails, although the same
value does decode to exactly the claimed record once the claimed
normalization is applied (the replacement lives only in the unrelated
search-endpoint code). -/
theorem claim_C3_counterexample :
    (scrapeHourlySwells sqSwellCell).isOk = false ∧
    unmarshalSwells (specNormalizeSwellQuotes sqSwellVal)
      = .ok [{ PeriodInSeconds := ⟨15, 1⟩, DirectionToInDegrees := ⟨200, 0⟩,
               DirectionFromInCompassPoints := "S", WaveHeightInMeters := ⟨3, 1⟩ }] := by
  decide

theorem filterMap_id_length_countP {α : Type} (ps : List (Option α)) :
    (ps.filterMap id).length = ps.countP Option.isSome := by
  induction ps with
  | nil => rfl
  | cons p rest ih =>
    cases p with
    | none => simpa [List.countP_cons] using ih
    | some a => simpa [List.countP_cons] using ih

/-- C3 (amended): the swell scraper decodes the data-swell-state attribute
value as-is, with no quote normalization: a well-formed double-quoted array
decodes with every null entry silently skipped (contributing zero Swell
records, not an error, so the output length is the count of non-null
entries), any decode failure — including the single-quoted form — is fatal,
and a missing attribute is fatal. -/
theorem claim_C3_swells_decode :
    (∀ (b : String) (ps : List (Option swellPayload)),
        jsonUnmarshalSwells b = .ok ps →
        unmarshalSwells b = .ok ((ps.filterMap id).map swellOfPayload) ∧
        ((ps.filterMap id).map swellOfPayload).length = ps.countP Option.isSome) ∧
    (∀ b e : String, jsonUnmarshalSwells b = .error e →
        unmarshalSwells b = errMsg ("could not unmarshal payload: " ++ e)) ∧
    (∀ (cell : Node) (a : Attr),
        Htmlutil.Attribute cell attributeDataSwellState = some a →
        scrapeHourlySwells cell =
          (match unmarshalSwells a.val with
           | .error e => .error (wrapGo "could not unmarshal swells: " e)
           | .ok swells => .ok swells)) ∧
    (∀ cell : Node, Htmlutil.Attribute cell attributeDataSwellState = none →
        scrapeHourlySwells cell = errMsg "could not find swells attribute") ∧
    unmarshalSwells "[null]" = .ok [] ∧
    unmarshalSwells "[null, \x7b\"period\": 1.5\x7d]"
      = .ok [⟨⟨15, 1⟩, ⟨0, 0⟩, "", ⟨0, 0⟩⟩] ∧
    (unmarshalSwells sqSwellVal).isOk = false := by
  refine ⟨?_, ?_, ?_, ?_, by decide, by decide, by decide⟩
  · intro b ps h
    unfold unmarshalSwells
    rw [h]
    refine ⟨rfl, ?_⟩
    rw [List.length_map]
    exact filterMap_id_length_countP ps
  · intro b e h
    unfold unmarshalSwells
    rw [h]
  · intro cell a h
    unfold scrapeHourlySwells
    rw [h]
  · intro cell h
    unfold scrapeHourlySwells
    rw [h]

/-- C3 witness: the amended decode behaviour at a concrete payload with one
null entry. -/
theorem claim_C3_swells_decode_witness :
    unmarshalSwells "[null]" = .ok [] ∧
    ((([none] : List (Option swellPayload)).filterMap id).map swellOfPayload).length
      = ([none] : List (Option swellPayload)).countP Option.isSome := by
  have h := claim_C3_swells_decode.1 "[null]" [none] (by decide)
  exact ⟨h.1, h.2⟩

end Surfforecast

namespace Surfforecast

open SurfSpec Htmlutil

/-- Fixture: an issuance header node (class break-header__issued) whose
first child is a text node holding the given sentence. -/
def issueNodeOf (s : String) : Node :=
  .mk .elementNode "div" [⟨"", "class", classBreakHeaderIssued⟩] [textN s]

/-- C8. On an issuance header with text s: splitting on spaces must yield
exactly 12 tokens or the resolver fails with the unexpected-issue-text
error; with 12 tokens it reads hour, meridiem, day, short month and year
from token positions 5, 6, 8, 9 and 10 and the timezone abbreviation from
position 11, fails when the abbreviation lookup errors, returns zero
candidates, or its first candidate cannot be loaded, and otherwise builds
the instant deterministically in the first candidate's zone. -/
theorem claim_C8_issue_resolver :
    ∀ (s : String) (tzf : String → Except String (List String))
      (llf : String → Option Location),
      ((goSplitSpace s).length ≠ 12 →
        scrapeIssueTimestamp (issueNodeOf s) tzf llf
          = errMsg ("unexpected issue text: " ++ quoteStr s)) ∧
      (∀ p0 p1 p2 p3 p4 p5 p6 p7 p8 p9 p10 p11 : String,
        goSplitSpace s = [p0, p1, p2, p3, p4, p5, p6, p7, p8, p9, p10, p11] →
        ∀ (h0 : Int) (period : clockPeriod) (day month year : Int),
          parseTwelveClockHour p5 = .ok h0 →
          parseClockPeriod p6 = .ok period →
          parseDay p8 = .ok day →
          parseMonthShort p9 = .ok month →
          goAtoi p10 = some year →
          ((∀ e : String, tzf p11 = .error e →
              scrapeIssueTimestamp (issueNodeOf s) tzf llf
                = errMsg ("could not find timezones for " ++ quoteStr p11
                    ++ " abbreviation: " ++ e)) ∧
           (tzf p11 = .ok [] →
              scrapeIssueTimestamp (issueNodeOf s) tzf llf
                = errMsg ("0 timezones found for " ++ quoteStr p11
                    ++ " abbreviation")) ∧
           (∀ (z : String) (zs : List String), tzf p11 = .ok (z :: zs) →
              (llf z = none →
                scrapeIssueTimestamp (issueNodeOf s) tzf llf
                  = errMsg ("could not find time location for " ++ quoteStr z)) ∧
              (∀ loc : Location, llf z = some loc →
                scrapeIssueTimestamp (issueNodeOf s) tzf llf
                  = .ok (timeDate year month day
                      (toTwentyFourClockHour h0 period) 0 0 loc))))) := by
  intro s tzf llf
  have hred : scrapeIssueTimestamp (issueNodeOf s) tzf llf = issueTail s tzf llf := rfl
  constructor
  · intro hlen
    rw [hred]
    unfold issueTail
    rw [if_pos hlen]
  · intro p0 p1 p2 p3 p4 p5 p6 p7 p8 p9 p10 p11 hsplit
    intro h0 period day month year hp5 hp6 hp8 hp9 hp10
    have hcore : issueTail s tzf llf =
        (match tzf p11 with
         | .error e =>
           errMsg ("could not find timezones for " ++ quoteStr p11
             ++ " abbreviation: " ++ e)
         | .ok timezones =>
           match timezones with
           | [] =>
             errMsg ("0 timezones found for " ++ quoteStr p11 ++ " abbreviation")
           | timezone :: _ =>
             match llf timezone with
             | none =>
               errMsg ("could not find time location for " ++ quoteStr timezone)
             | some loc =>
               .ok (timeDate year month day
                 (toTwentyFourClockHour h0 period) 0 0 loc)) := by
      unfold issueTail
      rw [hsplit]
      simp only [List.length_cons, List.length_nil, List.getD_cons_succ,
        List.getD_cons_zero]
      rw [if_neg (by omega)]
      rw [hp5, hp6, hp8, hp9, hp10]
    refine ⟨?_, ?_, ?_⟩
    · intro e htz
      rw [hred, hcore, htz]
    · intro htz
      rw [hred, hcore, htz]
    · intro z zs htz
      refine ⟨?_, ?_⟩
      · intro hll
        rw [hred, hcore]
        simp only [htz, hll]
      · intro loc hll
        rw [hred, hcore]
        simp only [htz, hll]

/-- C8 witness: the resolver at the concrete 12-token fixture sentence with
the sample lookup capabilities. -/
theorem claim_C8_issue_resolver_witness :
    scrapeIssueTimestamp (issueNodeOf issueText) sampleGetTimezones sampleLoadLocation
      = .ok (timeDate 2022 4 1 (toTwentyFourClockHour 6 beforeMidday) 0 0 parisLoc) := by
  have h := (claim_C8_issue_resolver issueText sampleGetTimezones sampleLoadLocation).2
    "Local" "surf" "forecast" "issued" "at" "6" "AM" "on" "1" "Apr" "2022" "CEST"
    (by decide) 6 beforeMidday 1 4 2022 (by decide) (by decide) (by decide)
    (by decide) (by decide)
  exact (h.2.2 "Europe/Paris" [] (by decide)).2 parisLoc (by decide)

end Surfforecast

namespace Surfforecast

open SurfSpec Htmlutil

/-- The per-day block alignment the assembler enforces: each other row's
day-blocks match the hours row's day-blocks in length, block by block. -/
def blocksAligned (hs rs : List (List Int)) (sws : List (List Swells))
    (es : List (List GoFloat)) (ws : List (List wind))
    (sts : List (List String)) : Prop :=
  List.Forall₂ (fun (a : List Int) (b : List Int) => a.length = b.length) hs rs ∧
  List.Forall₂ (fun (a : List Int) (b : List Swells) => a.length = b.length) hs sws ∧
  List.Forall₂ (fun (a : List Int) (b : List GoFloat) => a.length = b.length) hs es ∧
  List.Forall₂ (fun (a : List Int) (b : List wind) => a.length = b.length) hs ws ∧
  List.Forall₂ (fun (a : List Int) (b : List String) => a.length = b.length) hs sts

/-- The five per-day mismatch messages of newDailyForecast, in check order. -/
def dailyLenMsgs : List GoError :=
  [.msg "hours and ratings must have equal number of elements",
   .msg "hours and swells must have equal number of elements",
   .msg "hours and wave energies must have equal number of elements",
   .msg "hours and winds must have equal number of elements",
   .msg "hours and wind states must have equal number of elements"]

theorem zipHourly_length (l : Location) (y m d : Int) :
    ∀ (hs rs : List Int) (ss : List Swells) (es : List GoFloat) (ws : List wind)
      (sts : List String),
      hs.length = rs.length → hs.length = ss.length → hs.length = es.length →
      hs.length = ws.length → hs.length = sts.length →
      (zipHourly l y m d hs rs ss es ws sts).length = hs.length := by
  intro hs
  induction hs with
  | nil =>
    intro rs ss es ws sts h1 h2 h3 h4 h5
    cases rs <;> cases ss <;> cases es <;> cases ws <;> cases sts <;>
      simp_all [zipHourly]
  | cons h hs ih =>
    intro rs ss es ws sts h1 h2 h3 h4 h5
    cases rs with
    | nil => simp at h1
    | cons r rs =>
      cases ss with
      | nil => simp at h2
      | cons s ss =>
        cases es with
        | nil => simp at h3
        | cons e es =>
          cases ws with
          | nil => simp at h4
          | cons w ws =>
            cases sts with
            | nil => simp at h5
            | cons st sts =>
              simp only [zipHourly, List.length_cons]
              rw [ih rs ss es ws sts (by simpa using h1) (by simpa using h2)
                (by simpa using h3) (by simpa using h4) (by simpa using h5)]

theorem zipHourly_getD (l : Location) (y m d : Int) :
    ∀ (hs rs : List Int) (ss : List Swells) (es : List GoFloat) (ws : List wind)
      (sts : List String) (j : Nat),
      hs.length = rs.length → hs.length = ss.length → hs.length = es.length →
      hs.length = ws.length → hs.length = sts.length → j < hs.length →
      (zipHourly l y m d hs rs ss es ws sts).getD j default =
        { Timestamp := timeDate y m d (hs.getD j 0) 0 0 l
          Rating := rs.getD j 0
          Swells := ss.getD j []
          WaveEnergyInKiloJoules := es.getD j default
          Wind :=
            { SpeedInKilometersPerHour := (ws.getD j default).speed
              DirectionToInDegrees := (ws.getD j default).degrees
              DirectionFromInCompassPoints := (ws.getD j default).letters
              State := sts.getD j "" } } := by
  intro hs
  induction hs with
  | nil =>
    intro rs ss es ws sts j h1 h2 h3 h4 h5 hj
    simp at hj
  | cons h hs ih =>
    intro rs ss es ws sts j h1 h2 h3 h4 h5 hj
    cases rs with
    | nil => simp at h1
    | cons r rs =>
      cases ss with
      | nil => simp at h2
      | cons s ss =>
        cases es with
        | nil => simp at h3
        | cons e es =>
          cases ws with
          | nil => simp at h4
          | cons w ws =>
            cases sts with
            | nil => simp at h5
            | cons st sts =>
              cases j with
              | zero => simp [zipHourly]
              | succ j =>
                simp only [zipHourly, List.getD_cons_succ]
                exact ih rs ss es ws sts j (by simpa using h1) (by simpa using h2)
                  (by simpa using h3) (by simpa using h4) (by simpa using h5)
                  (by simpa using hj)

theorem newDailyForecast_eq_ok (l : Location) (y m d : Int)
    (hs rs : List Int) (ss : List Swells) (es : List GoFloat)
    (ws : List wind) (sts : List String)
    (h1 : hs.length = rs.length) (h2 : hs.length = ss.length)
    (h3 : hs.length = es.length) (h4 : hs.length = ws.length)
    (h5 : hs.length = sts.length) :
    newDailyForecast l y m d hs rs ss es ws sts
      = .ok { Timestamp := timeDate y m d 0 0 0 l
              Hourly := zipHourly l y m d hs rs ss es ws sts } := by
  unfold newDailyForecast
  rw [if_neg (by omega), if_neg (by omega), if_neg (by omega),
    if_neg (by omega), if_neg (by omega)]

theorem newDailyForecast_isOk_iff (l : Location) (y m d : Int)
    (hs rs : List Int) (ss : List Swells) (es : List GoFloat)
    (ws : List wind) (sts : List String) :
    (newDailyForecast l y m d hs rs ss es ws sts).isOk = true ↔
      (hs.length = rs.length ∧ hs.length = ss.length ∧ hs.length = es.length ∧
       hs.length = ws.length ∧ hs.length = sts.length) := by
  unfold newDailyForecast
  split_ifs with h1 h2 h3 h4 h5 <;> simp_all [errMsg, Except.isOk, Except.toBool]

theorem newDailyForecast_error_mem (l : Location) (y m d : Int)
    (hs rs : List Int) (ss : List Swells) (es : List GoFloat)
    (ws : List wind) (sts : List String) (e : GoError)
    (h : newDailyForecast l y m d hs rs ss es ws sts = .error e) :
    e ∈ dailyLenMsgs := by
  unfold newDailyForecast at h
  split_ifs at h <;> simp_all [errMsg, dailyLenMsgs]

theorem forall₂_len_getD {α β : Type} (xs : List (List α)) (ys : List (List β))
    (h : List.Forall₂ (fun a b => a.length = b.length) xs ys)
    (i : Nat) (hi : i < xs.length) :
    (xs.getD i []).length = (ys.getD i []).length := by
  induction h generalizing i with
  | nil => simp at hi
  | cons hab htail ih =>
    cases i with
    | zero => simpa using hab
    | succ i => simpa using ih i (by simpa using hi)

end Surfforecast

namespace Surfforecast

open SurfSpec Htmlutil

theorem forecastLoop_spec (t : Time) :
    ∀ (ds : List Int) (hs rs : List (List Int)) (sws : List (List Swells))
      (es : List (List GoFloat)) (ws : List (List wind))
      (sts : List (List String)) (y m : Int) (prev : Option DailyForecast),
      ds.length = hs.length → ds.length = rs.length → ds.length = sws.length →
      ds.length = es.length → ds.length = ws.length → ds.length = sts.length →
      (((forecastLoop t y m prev ds hs rs sws es ws sts).isOk = true) ↔
        blocksAligned hs rs sws es ws sts) ∧
      (∀ e, forecastLoop t y m prev ds hs rs sws es ws sts = .error e →
        e ∈ dailyLenMsgs.map (wrapGo "could not create forecast: ")) ∧
      (∀ out, forecastLoop t y m prev ds hs rs sws es ws sts = .ok out →
        out.length = ds.length ∧
        ∀ i, i < ds.length →
          ∃ mi : Int,
            out.getD i default =
              { Timestamp := timeDate t.Year mi (ds.getD i 0) 0 0 0 t.loc
                Hourly := zipHourly t.loc t.Year mi (ds.getD i 0) (hs.getD i [])
                  (rs.getD i []) (sws.getD i []) (es.getD i []) (ws.getD i [])
                  (sts.getD i []) }) := by
  intro ds
  induction ds with
  | nil =>
    intro hs rs sws es ws sts y m prev l1 l2 l3 l4 l5 l6
    cases hs with
    | cons a b => simp at l1
    | nil =>
    cases rs with
    | cons a b => simp at l2
    | nil =>
    cases sws with
    | cons a b => simp at l3
    | nil =>
    cases es with
    | cons a b => simp at l4
    | nil =>
    cases ws with
    | cons a b => simp at l5
    | nil =>
    cases sts with
    | cons a b => simp at l6
    | nil =>
    refine ⟨?_, ?_, ?_⟩
    · simp [forecastLoop, blocksAligned, Except.isOk, Except.toBool]
    · intro e he
      simp [forecastLoop] at he
    · intro out hout
      have hout2 : ([] : List DailyForecast) = out := by
        simpa [forecastLoop] using hout
      subst hout2
      exact ⟨rfl, by intro i hi; simp at hi⟩
  | cons d ds ih =>
    intro hs rs sws es ws sts y m prev l1 l2 l3 l4 l5 l6
    cases hs with
    | nil => simp at l1
    | cons h hs =>
    cases rs with
    | nil => simp at l2
    | cons r rs =>
    cases sws with
    | nil => simp at l3
    | cons sw sws =>
    cases es with
    | nil => simp at l4
    | cons e es =>
    cases ws with
    | nil => simp at l5
    | cons w ws =>
    cases sts with
    | nil => simp at l6
    | cons st sts =>
    have l1' : ds.length = hs.length := by simpa using l1
    have l2' : ds.length = rs.length := by simpa using l2
    have l3' : ds.length = sws.length := by simpa using l3
    have l4' : ds.length = es.length := by simpa using l4
    have l5' : ds.length = ws.length := by simpa using l5
    have l6' : ds.length = sts.length := by simpa using l6
    obtain ⟨m1, y1, heq⟩ : ∃ m1 y1,
        forecastLoop t y m prev (d :: ds) (h :: hs) (r :: rs) (sw :: sws)
          (e :: es) (w :: ws) (st :: sts) =
        (match newDailyForecast t.loc t.Year m1 d h r sw e w st with
         | .error err => .error (wrapGo "could not create forecast: " err)
         | .ok f =>
           match forecastLoop t y1 m1 (some f) ds hs rs sws es ws sts with
           | .error err => .error err
           | .ok rest => .ok (f :: rest)) := ⟨_, _, rfl⟩
    cases hD : newDailyForecast t.loc t.Year m1 d h r sw e w st with
    | error err =>
      have hstep : forecastLoop t y m prev (d :: ds) (h :: hs) (r :: rs) (sw :: sws)
          (e :: es) (w :: ws) (st :: sts)
          = .error (wrapGo "could not create forecast: " err) := by
        rw [heq, hD]
      have herr := newDailyForecast_error_mem t.loc t.Year m1 d h r sw e w st err hD
      have hnotok : ¬(h.length = r.length ∧ h.length = sw.length ∧
          h.length = e.length ∧ h.length = w.length ∧ h.length = st.length) := by
        intro hcon
        have hok := (newDailyForecast_isOk_iff t.loc t.Year m1 d h r sw e w st).mpr hcon
        rw [hD] at hok
        simp [Except.isOk, Except.toBool] at hok
      refine ⟨?_, ?_, ?_⟩
      · rw [hstep]
        simp only [Except.isOk, Except.toBool]
        constructor
        · intro hfalse; exact absurd hfalse (by simp)
        · intro haligned
          obtain ⟨a1, a2, a3, a4, a5⟩ := haligned
          rw [List.forall₂_cons] at a1 a2 a3 a4 a5
          exact absurd ⟨a1.1, a2.1, a3.1, a4.1, a5.1⟩ hnotok
      · intro e2 he2
        rw [hstep] at he2
        have he3 : wrapGo "could not create forecast: " err = e2 := Except.error.inj he2
        subst he3
        exact List.mem_map_of_mem (wrapGo "could not create forecast: ") herr
      · intro out hout
        rw [hstep] at hout
        exact absurd hout (by simp)
    | ok f =>
      have hheads := (newDailyForecast_isOk_iff t.loc t.Year m1 d h r sw e w st).mp
        (by rw [hD]; rfl)
      obtain ⟨e1, e2, e3, e4, e5⟩ := hheads
      have hf : f = { Timestamp := timeDate t.Year m1 d 0 0 0 t.loc
                      Hourly := zipHourly t.loc t.Year m1 d h r sw e w st } := by
        have hf2 := newDailyForecast_eq_ok t.loc t.Year m1 d h r sw e w st
          e1 e2 e3 e4 e5
        rw [hD] at hf2
        exact Except.ok.inj hf2
      obtain ⟨ihIff, ihErr, ihOk⟩ :=
        ih hs rs sws es ws sts y1 m1 (some f) l1' l2' l3' l4' l5' l6'
      have hstep1 : forecastLoop t y m prev (d :: ds) (h :: hs) (r :: rs) (sw :: sws)
          (e :: es) (w :: ws) (st :: sts)
          = (match forecastLoop t y1 m1 (some f) ds hs rs sws es ws sts with
             | .error err2 => .error err2
             | .ok rest => .ok (f :: rest)) := by
        rw [heq, hD]
      cases hR : forecastLoop t y1 m1 (some f) ds hs rs sws es ws sts with
      | error errR =>
        have hstep : forecastLoop t y m prev (d :: ds) (h :: hs) (r :: rs) (sw :: sws)
            (e :: es) (w :: ws) (st :: sts) = .error errR := by
          rw [hstep1, hR]
        refine ⟨?_, ?_, ?_⟩
        · rw [hstep]
          simp only [Except.isOk, Except.toBool]
          constructor
          · intro hfalse; exact absurd hfalse (by simp)
          · intro haligned
            obtain ⟨a1, a2, a3, a4, a5⟩ := haligned
            rw [List.forall₂_cons] at a1 a2 a3 a4 a5
            have htail : blocksAligned hs rs sws es ws sts :=
              ⟨a1.2, a2.2, a3.2, a4.2, a5.2⟩
            have hok := ihIff.mpr htail
            rw [hR] at hok
            simp [Except.isOk, Except.toBool] at hok
        · intro e2 he2
          rw [hstep] at he2
          have he3 : errR = e2 := Except.error.inj he2
          subst he3
          exact ihErr errR hR
        · intro out hout
          rw [hstep] at hout
          exact absurd hout (by simp)
      | ok rest =>
        obtain ⟨hrlen, hrget⟩ := ihOk rest hR
        have hstep : forecastLoop t y m prev (d :: ds) (h :: hs) (r :: rs) (sw :: sws)
            (e :: es) (w :: ws) (st :: sts) = .ok (f :: rest) := by
          rw [hstep1, hR]
        refine ⟨?_, ?_, ?_⟩
        · rw [hstep]
          simp only [Except.isOk, Except.toBool]
          constructor
          · intro _
            have htail : blocksAligned hs rs sws es ws sts := by
              apply ihIff.mp
              rw [hR]
              rfl
            obtain ⟨a1, a2, a3, a4, a5⟩ := htail
            exact ⟨List.forall₂_cons.mpr ⟨e1, a1⟩, List.forall₂_cons.mpr ⟨e2, a2⟩,
              List.forall₂_cons.mpr ⟨e3, a3⟩, List.forall₂_cons.mpr ⟨e4, a4⟩,
              List.forall₂_cons.mpr ⟨e5, a5⟩⟩
          · intro _; trivial
        · intro e2 he2
          rw [hstep] at he2
          exact absurd he2 (by simp)
        · intro out hout
          rw [hstep] at hout
          have hout2 : f :: rest = out := Except.ok.inj hout
          subst hout2
          refine ⟨by simpa using congrArg Nat.succ hrlen, ?_⟩
          intro i hi
          cases i with
          | zero =>
            refine ⟨m1, ?_⟩
            simpa using hf
          | succ i =>
            have hi2 : i < ds.length := by simpa using hi
            obtain ⟨mi, hmi⟩ := hrget i hi2
            exact ⟨mi, by simpa using hmi⟩

end Surfforecast

namespace Surfforecast

open SurfSpec Htmlutil

/-- The twelve assembler error messages: the six top-level day-block count
mismatches, then the five per-day block mismatches wrapped by the loop. -/
def newForecastsErrMsgs : List GoError :=
  [.msg "days and hours must have equal number of elements",
   .msg "days and ratings must have equal number of elements",
   .msg "days and swells must have equal number of elements",
   .msg "days and wave energies must have equal number of elements",
   .msg "days and winds must have equal number of elements",
   .msg "days and wind states must have equal number of elements"]
  ++ dailyLenMsgs.map (wrapGo "could not create forecast: ")

/-- C2. Assembly succeeds exactly when the days/hours/ratings/swells/
energies/winds/wind-states sequences have the same number of day-blocks and,
for every day, the per-day blocks have pairwise equal lengths; each mismatch
produces the error naming the offending pair (the first failing check, with
per-day mismatches wrapped by the loop), and on success the blocks are
zipped index-wise into HourlyForecast records. -/
theorem claim_C2_assembler_validation :
    ∀ (t : Time) (ds : List Int) (hs rs : List (List Int))
      (sws : List (List Swells)) (es : List (List GoFloat))
      (ws : List (List wind)) (sts : List (List String)),
      ((newForecasts t ds hs rs sws es ws sts).isOk = true ↔
        (ds.length = hs.length ∧ ds.length = rs.length ∧ ds.length = sws.length ∧
         ds.length = es.length ∧ ds.length = ws.length ∧ ds.length = sts.length ∧
         blocksAligned hs rs sws es ws sts)) ∧
      (ds.length ≠ hs.length →
        newForecasts t ds hs rs sws es ws sts
          = errMsg "days and hours must have equal number of elements") ∧
      (ds.length = hs.length → ds.length ≠ rs.length →
        newForecasts t ds hs rs sws es ws sts
          = errMsg "days and ratings must have equal number of elements") ∧
      (ds.length = hs.length → ds.length = rs.length → ds.length ≠ sws.length →
        newForecasts t ds hs rs sws es ws sts
          = errMsg "days and swells must have equal number of elements") ∧
      (ds.length = hs.length → ds.length = rs.length → ds.length = sws.length →
        ds.length ≠ es.length →
        newForecasts t ds hs rs sws es ws sts
          = errMsg "days and wave energies must have equal number of elements") ∧
      (ds.length = hs.length → ds.length = rs.length → ds.length = sws.length →
        ds.length = es.length → ds.length ≠ ws.length →
        newForecasts t ds hs rs sws es ws sts
          = errMsg "days and winds must have equal number of elements") ∧
      (ds.length = hs.length → ds.length = rs.length → ds.length = sws.length →
        ds.length = es.length → ds.length = ws.length → ds.length ≠ sts.length →
        newForecasts t ds hs rs sws es ws sts
          = errMsg "days and wind states must have equal number of elements") ∧
      (∀ e, newForecasts t ds hs rs sws es ws sts = .error e →
        e ∈ newForecastsErrMsgs) ∧
      (∀ f, newForecasts t ds hs rs sws es ws sts = .ok f →
        f.IssuedAt = t ∧ f.Daily.length = ds.length ∧
        ∀ i, i < ds.length →
          (f.Daily.getD i default).Hourly.length = (hs.getD i []).length ∧
          ∀ j, j < (hs.getD i []).length →
            ((f.Daily.getD i default).Hourly.getD j default).Rating
              = (rs.getD i []).getD j 0 ∧
            ((f.Daily.getD i default).Hourly.getD j default).Swells
              = (sws.getD i []).getD j [] ∧
            ((f.Daily.getD i default).Hourly.getD j default).WaveEnergyInKiloJoules
              = (es.getD i []).getD j default ∧
            ((f.Daily.getD i default).Hourly.getD j default).Wind.SpeedInKilometersPerHour
              = ((ws.getD i []).getD j default).speed ∧
            ((f.Daily.getD i default).Hourly.getD j default).Wind.DirectionToInDegrees
              = ((ws.getD i []).getD j default).degrees ∧
            ((f.Daily.getD i default).Hourly.getD j default).Wind.DirectionFromInCompassPoints
              = ((ws.getD i []).getD j default).letters ∧
            ((f.Daily.getD i default).Hourly.getD j default).Wind.State
              = (sts.getD i []).getD j "") := by
  intro t ds hs rs sws es ws sts
  by_cases c1 : ds.length = hs.length
  case neg =>
    have hnf : newForecasts t ds hs rs sws es ws sts
        = errMsg "days and hours must have equal number of elements" := by
      unfold newForecasts
      rw [if_pos c1]
    refine ⟨?_, fun _ => hnf, fun hh _ => absurd hh c1, fun hh _ _ => absurd hh c1,
      fun hh _ _ _ => absurd hh c1, fun hh _ _ _ _ => absurd hh c1,
      fun hh _ _ _ _ _ => absurd hh c1, ?_, ?_⟩
    · constructor
      · intro habs
        rw [hnf] at habs
        simp [errMsg, Except.isOk, Except.toBool] at habs
      · rintro ⟨hh, -, -, -, -, -, -⟩
        exact absurd hh c1
    · intro e he
      rw [hnf] at he
      have he2 : GoError.msg "days and hours must have equal number of elements" = e :=
        Except.error.inj he
      subst he2
      decide
    · intro f hf
      rw [hnf] at hf
      exact absurd hf (by simp [errMsg])
  by_cases c2 : ds.length = rs.length
  case neg =>
    have hnf : newForecasts t ds hs rs sws es ws sts
        = errMsg "days and ratings must have equal number of elements" := by
      unfold newForecasts
      rw [if_neg (by omega), if_pos c2]
    refine ⟨?_, fun hne => absurd c1 hne, fun _ _ => hnf, fun _ hh _ => absurd hh c2,
      fun _ hh _ _ => absurd hh c2, fun _ hh _ _ _ => absurd hh c2,
      fun _ hh _ _ _ _ => absurd hh c2, ?_, ?_⟩
    · constructor
      · intro habs
        rw [hnf] at habs
        simp [errMsg, Except.isOk, Except.toBool] at habs
      · rintro ⟨-, hh, -, -, -, -, -⟩
        exact absurd hh c2
    · intro e he
      rw [hnf] at he
      have he2 : GoError.msg "days and ratings must have equal number of elements" = e :=
        Except.error.inj he
      subst he2
      decide
    · intro f hf
      rw [hnf] at hf
      exact absurd hf (by simp [errMsg])
  by_cases c3 : ds.length = sws.length
  case neg =>
    have hnf : newForecasts t ds hs rs sws es ws sts
        = errMsg "days and swells must have equal number of elements" := by
      unfold newForecasts
      rw [if_neg (by omega), if_neg (by omega), if_pos c3]
    refine ⟨?_, fun hne => absurd c1 hne, fun _ hne => absurd c2 hne,
      fun _ _ _ => hnf, fun _ _ hh _ => absurd hh c3,
      fun _ _ hh _ _ => absurd hh c3, fun _ _ hh _ _ _ => absurd hh c3, ?_, ?_⟩
    · constructor
      · intro habs
        rw [hnf] at habs
        simp [errMsg, Except.isOk, Except.toBool] at habs
      · rintro ⟨-, -, hh, -, -, -, -⟩
        exact absurd hh c3
    · intro e he
      rw [hnf] at he
      have he2 : GoError.msg "days and swells must have equal number of elements" = e :=
        Except.error.inj he
      subst he2
      decide
    · intro f hf
      rw [hnf] at hf
      exact absurd hf (by simp [errMsg])
  by_cases c4 : ds.length = es.length
  case neg =>
    have hnf : newForecasts t ds hs rs sws es ws sts
        = errMsg "days and wave energies must have equal number of elements" := by
      unfold newForecasts
      rw [if_neg (by omega), if_neg (by omega), if_neg (by omega), if_pos c4]
    refine ⟨?_, fun hne => absurd c1 hne, fun _ hne => absurd c2 hne,
      fun _ _ hne => absurd c3 hne, fun _ _ _ _ => hnf,
      fun _ _ _ hh _ => absurd hh c4, fun _ _ _ hh _ _ => absurd hh c4, ?_, ?_⟩
    · constructor
      · intro habs
        rw [hnf] at habs
        simp [errMsg, Except.isOk, Except.toBool] at habs
      · rintro ⟨-, -, -, hh, -, -, -⟩
        exact absurd hh c4
    · intro e he
      rw [hnf] at he
      have he2 : GoError.msg "days and wave energies must have equal number of elements" = e :=
        Except.error.inj he
      subst he2
      decide
    · intro f hf
      rw [hnf] at hf
      exact absurd hf (by simp [errMsg])
  by_cases c5 : ds.length = ws.length
  case neg =>
    have hnf : newForecasts t ds hs rs sws es ws sts
        = errMsg "days and winds must have equal number of elements" := by
      unfold newForecasts
      rw [if_neg (by omega), if_neg (by omega), if_neg (by omega), if_neg (by omega),
        if_pos c5]
    refine ⟨?_, fun hne => absurd c1 hne, fun _ hne => absurd c2 hne,
      fun _ _ hne => absurd c3 hne, fun _ _ _ hne => absurd c4 hne,
      fun _ _ _ _ _ => hnf, fun _ _ _ _ hh _ => absurd hh c5, ?_, ?_⟩
    · constructor
      · intro habs
        rw [hnf] at habs
        simp [errMsg, Except.isOk, Except.toBool] at habs
      · rintro ⟨-, -, -, -, hh, -, -⟩
        exact absurd hh c5
    · intro e he
      rw [hnf] at he
      have he2 : GoError.msg "days and winds must have equal number of elements" = e :=
        Except.error.inj he
      subst he2
      decide
    · intro f hf
      rw [hnf] at hf
      exact absurd hf (by simp [errMsg])
  by_cases c6 : ds.length = sts.length
  case neg =>
    have hnf : newForecasts t ds hs rs sws es ws sts
        = errMsg "days and wind states must have equal number of elements" := by
      unfold newForecasts
      rw [if_neg (by omega), if_neg (by omega), if_neg (by omega), if_neg (by omega),
        if_neg (by omega), if_pos c6]
    refine ⟨?_, fun hne => absurd c1 hne, fun _ hne => absurd c2 hne,
      fun _ _ hne => absurd c3 hne, fun _ _ _ hne => absurd c4 hne,
      fun _ _ _ _ hne => absurd c5 hne, fun _ _ _ _ _ _ => hnf, ?_, ?_⟩
    · constructor
      · intro habs
        rw [hnf] at habs
        simp [errMsg, Except.isOk, Except.toBool] at habs
      · rintro ⟨-, -, -, -, -, hh, -⟩
        exact absurd hh c6
    · intro e he
      rw [hnf] at he
      have he2 : GoError.msg "days and wind states must have equal number of elements" = e :=
        Except.error.inj he
      subst he2
      decide
    · intro f hf
      rw [hnf] at hf
      exact absurd hf (by simp [errMsg])
  -- all six day-block counts agree
  have hnf : newForecasts t ds hs rs sws es ws sts
      = (match forecastLoop t t.Year t.Month none ds hs rs sws es ws sts with
         | .error err => .error err
         | .ok daily => .ok { IssuedAt := t, Daily := daily }) := by
    unfold newForecasts
    rw [if_neg (by omega), if_neg (by omega), if_neg (by omega), if_neg (by omega),
      if_neg (by omega), if_neg (by omega)]
  obtain ⟨lIff, lErr, lOk⟩ := forecastLoop_spec t ds hs rs sws es ws sts
    t.Year t.Month none c1 c2 c3 c4 c5 c6
  refine ⟨?_, fun hne => absurd c1 hne, fun _ hne => absurd c2 hne,
    fun _ _ hne => absurd c3 hne, fun _ _ _ hne => absurd c4 hne,
    fun _ _ _ _ hne => absurd c5 hne, fun _ _ _ _ _ hne => absurd c6 hne, ?_, ?_⟩
  · rw [hnf]
    cases hL : forecastLoop t t.Year t.Month none ds hs rs sws es ws sts with
    | error errL =>
      constructor
      · intro habs
        simp [Except.isOk, Except.toBool] at habs
      · rintro ⟨-, -, -, -, -, -, hal⟩
        have hok := lIff.mpr hal
        rw [hL] at hok
        simp [Except.isOk, Except.toBool] at hok
    | ok daily =>
      constructor
      · intro _
        exact ⟨c1, c2, c3, c4, c5, c6, lIff.mp (by rw [hL]; rfl)⟩
      · intro _
        simp [Except.isOk, Except.toBool]
  · intro e he
    rw [hnf] at he
    revert he
    cases hL : forecastLoop t t.Year t.Month none ds hs rs sws es ws sts with
    | error errL =>
      intro he
      have he2 : errL = e := by simpa using he
      subst he2
      have := lErr errL hL
      exact List.mem_append.mpr (Or.inr this)
    | ok daily =>
      intro he
      exact absurd he (by simp)
  · intro f hf
    rw [hnf] at hf
    revert hf
    cases hL : forecastLoop t t.Year t.Month none ds hs rs sws es ws sts with
    | error errL =>
      intro hf
      exact absurd hf (by simp)
    | ok daily =>
      obtain ⟨fIs, fDa⟩ := f
      intro hf
      obtain ⟨hIs, hDa⟩ : t = fIs ∧ daily = fDa := by simpa using hf
      subst hIs
      subst hDa
      obtain ⟨hlen, hget⟩ := lOk daily hL
      have hal : blocksAligned hs rs sws es ws sts := lIff.mp (by rw [hL]; rfl)
      obtain ⟨a1, a2, a3, a4, a5⟩ := hal
      refine ⟨rfl, hlen, ?_⟩
      intro i hi
      have hi_hs : i < hs.length := by omega
      have len1 : (hs.getD i []).length = (rs.getD i []).length :=
        forall₂_len_getD hs rs a1 i hi_hs
      have len2 : (hs.getD i []).length = (sws.getD i []).length :=
        forall₂_len_getD hs sws a2 i hi_hs
      have len3 : (hs.getD i []).length = (es.getD i []).length :=
        forall₂_len_getD hs es a3 i hi_hs
      have len4 : (hs.getD i []).length = (ws.getD i []).length :=
        forall₂_len_getD hs ws a4 i hi_hs
      have len5 : (hs.getD i []).length = (sts.getD i []).length :=
        forall₂_len_getD hs sts a5 i hi_hs
      obtain ⟨mi, hmi⟩ := hget i hi
      refine ⟨?_, ?_⟩
      · rw [hmi]
        exact zipHourly_length t.loc t.Year mi (ds.getD i 0) (hs.getD i [])
          (rs.getD i []) (sws.getD i []) (es.getD i []) (ws.getD i [])
          (sts.getD i []) len1 len2 len3 len4 len5
      · intro j hj
        have hz := zipHourly_getD t.loc t.Year mi (ds.getD i 0) (hs.getD i [])
          (rs.getD i []) (sws.getD i []) (es.getD i []) (ws.getD i [])
          (sts.getD i []) j len1 len2 len3 len4 len5 hj
        have hH : (daily.getD i default).Hourly
            = zipHourly t.loc t.Year mi (ds.getD i 0) (hs.getD i []) (rs.getD i [])
              (sws.getD i []) (es.getD i []) (ws.getD i []) (sts.getD i []) := by
          rw [hmi]
        rw [hH, hz]
        exact ⟨rfl, rfl, rfl, rfl, rfl, rfl, rfl⟩

end Surfforecast

namespace Surfforecast

/-- C2 witness: the assembler at a concrete mismatched input (one day-block
of days, none of hours) produces the error naming the days/hours pair. -/
theorem claim_C2_assembler_validation_witness :
    newForecasts (timeDate 2022 4 25 6 0 0 parisLoc) [28] [] [] [] [] [] []
      = errMsg "days and hours must have equal number of elements" :=
  (claim_C2_assembler_validation (timeDate 2022 4 25 6 0 0 parisLoc)
    [28] [] [] [] [] [] []).2.1 (by decide)

end Surfforecast
